import Mathlib

/-!
Verification of the clincerta document pipeline against its design
specification.

The TypeScript sources are shallowly embedded: JS strings become lists of
characters, JS numbers become exact rationals (reals only where the code
calls Math.sqrt), fallible operations return Except/Option, and the
stateful document cache becomes explicit state passing.  All definitions
are translated from the source files (src/lib/audit-utils.ts,
src/lib/document-processor.ts, src/lib/fast-document-processor.ts, the
api route analyzers); definitions whose name ends in Spec restate the
specification's wording for comparison.
-/

set_option maxRecDepth 40000

namespace Clincerta

/-- JS strings are modelled as lists of characters. -/
abbrev Str := List Char

/-- Convert a Lean string literal into the model's string type. -/
def str (s : String) : Str := s.data

/-- Character-code range test (both bounds inclusive). -/
def between (lo hi : ℕ) (c : Char) : Bool :=
  decide (lo ≤ c.toNat) && decide (c.toNat ≤ hi)

/-- ASCII lower-casing of one character, as String.prototype.toLowerCase
acts on the ASCII range (all inputs considered here are ASCII). -/
def lowerChar (c : Char) : Char :=
  if between 65 90 c then Char.ofNat (c.toNat + 32) else c

/-- text.toLowerCase() over the ASCII range. -/
def lowerStr (s : Str) : Str := s.map lowerChar

/-- JS regex \w character class: [A-Za-z0-9_]. -/
def isWordChar (c : Char) : Bool :=
  between 97 122 c || between 65 90 c || between 48 57 c || c == '_'

/-- JS regex \s over the ASCII range: space, tab, newline, carriage
return, vertical tab, form feed. -/
def isWsChar (c : Char) : Bool :=
  c == ' ' || c == '\t' || c == '\n' || c == '\r' ||
    c.toNat == 11 || c.toNat == 12

/-- Sentence-terminator class of the analyzers' split(/[.!?]+/). -/
def isSentenceSep (c : Char) : Bool :=
  c == '.' || c == '!' || c == '?'

/-- JS String.prototype.split on a regex of the form /X+/ (split on
maximal runs of separator characters, keeping the empty fields that JS
produces at a leading or trailing separator; "" splits to [""]). -/
def jsSplit (sep : Char → Bool) : Str → List Str
  | [] => [[]]
  | c :: t =>
    if sep c then
      match t with
      | d :: _ => if sep d then jsSplit sep t else [] :: jsSplit sep t
      | [] => [] :: jsSplit sep t
    else
      match jsSplit sep t with
      | f :: rs => (c :: f) :: rs
      | [] => [[c]]

/-- JS String.prototype.trim (ASCII whitespace). -/
def jsTrim (s : Str) : Str :=
  ((s.dropWhile fun c => isWsChar c).reverse.dropWhile fun c => isWsChar c).reverse

/-- Does the pattern match at the very start of the haystack? -/
def leadMatch : Str → Str → Bool
  | [], _ => true
  | _ :: _, [] => false
  | p :: ps, h :: hs => p == h && leadMatch ps hs

/-- JS String.prototype.includes: the pattern occurs somewhere in the
haystack. -/
def strIncludes : Str → Str → Bool
  | [], pat => leadMatch pat []
  | h :: t, pat => leadMatch pat (h :: t) || strIncludes t pat

/-- JS Math.round: round half toward positive infinity. -/
def jsRound (q : ℚ) : ℤ := Rat.floor (q + 1 / 2)

/-- The model's Math.round is the mathematical floor of q + 1/2. -/
theorem jsRound_eq_floor (q : ℚ) : jsRound q = ⌊q + 1 / 2⌋ := by
  unfold jsRound
  rw [Rat.floor_def' (q + 1 / 2), Rat.floor_def]

/-- JS Math.round on a real argument (used where Math.sqrt makes a value
irrational). -/
noncomputable def jsRoundR (x : ℝ) : ℤ := ⌊x + 1 / 2⌋

theorem jsRound_nonneg {q : ℚ} (h : 0 ≤ q) : 0 ≤ jsRound q := by
  rw [jsRound_eq_floor]
  exact Int.floor_nonneg.2 (by linarith)

theorem jsRound_le {q : ℚ} {n : ℤ} (h : q ≤ n) : jsRound q ≤ n := by
  rw [jsRound_eq_floor]
  have : q + 1 / 2 < (n : ℚ) + 1 := by linarith
  exact Int.le_of_lt_add_one (Int.floor_lt.2 (by push_cast; linarith))

theorem jsRound_eq_of {q : ℚ} {n : ℤ} (h1 : (n : ℚ) ≤ q + 1 / 2)
    (h2 : q + 1 / 2 < (n : ℚ) + 1) : jsRound q = n := by
  rw [jsRound_eq_floor]
  exact Int.floor_eq_iff.2 ⟨h1, by linarith⟩

theorem jsRoundR_nonneg {x : ℝ} (h : 0 ≤ x) : 0 ≤ jsRoundR x := by
  unfold jsRoundR
  exact Int.floor_nonneg.2 (by linarith)

theorem jsRoundR_le {x : ℝ} {n : ℤ} (h : x ≤ n) : jsRoundR x ≤ n := by
  unfold jsRoundR
  exact Int.le_of_lt_add_one (Int.floor_lt.2 (by push_cast; linarith))

theorem jsRoundR_eq_of {x : ℝ} {n : ℤ} (h1 : (n : ℝ) ≤ x + 1 / 2)
    (h2 : x + 1 / 2 < (n : ℝ) + 1) : jsRoundR x = n := by
  unfold jsRoundR
  exact Int.floor_eq_iff.2 ⟨h1, by linarith⟩

/-- Array.prototype.join(' '). -/
def joinSpace (l : List Str) : Str := List.intercalate [' '] l

/-- Array.prototype.join with a newline, as chunks.join('\n'). -/
def joinNl (l : List Str) : Str := List.intercalate ['\n'] l

/-- Size of the JS Set built from a list (number of distinct elements). -/
def setSize [DecidableEq α] (l : List α) : ℕ := l.dedup.length

/-- JS [...setA].filter(x => setB.has(x)) for the sets of two lists. -/
def setInter [DecidableEq α] (a b : List α) : List α :=
  a.dedup.filter fun x => decide (x ∈ b.dedup)

/-- JS new Set([...setA, ...setB]) for the sets of two lists. -/
def setUnion [DecidableEq α] (a b : List α) : List α :=
  (a.dedup ++ b.dedup).dedup

/-- Character trigrams: getNGrams(text, 3) of the clonability analyzer
(substring(i, i+3) for every window of three characters). -/
def windows3 : Str → List Str
  | c1 :: c2 :: c3 :: rest => [c1, c2, c3] :: windows3 (c2 :: c3 :: rest)
  | _ => []

/-!
Document cache: DocumentCache of src/lib/audit-utils.ts, with the
browser's localStorage modelled as an optional stored list, the clock
passed explicitly, and the success of a backing-store write passed as a
boolean (a JS quota error on setItem is the write failing).
-/

namespace Cache

/-- The File fields the cache reads (name, size, lastModified, type). -/
structure FileMeta where
  name : Str
  size : ℕ
  lastModified : ℤ
  type : Str

/-- CachedDocument of audit-utils.ts. -/
structure CachedDoc where
  id : Str
  fileName : Str
  text : Str
  fileType : Str
  fileSize : ℕ
  isScanned : Bool
  ocrApplied : Bool
  timestamp : ℤ
  hash : Str
deriving DecidableEq

/-- DEFAULT_MAX_SIZE. -/
def maxSize : ℕ := 50

/-- DEFAULT_MAX_AGE (24 hours in milliseconds). -/
def maxAge : ℤ := 24 * 60 * 60 * 1000

/-- COMPRESSION_THRESHOLD. -/
def compressionThreshold : ℕ := 100000

/-- Decimal digits of a natural number (JS template-literal rendering);
structural recursion on a fuel that bounds the digit count, in the style
of core's Nat.toDigits. -/
def natToDecAux : ℕ → ℕ → Str → Str
  | 0, _, acc => acc
  | fuel + 1, n, acc =>
    if n = 0 then acc else natToDecAux fuel (n / 10) (Char.ofNat (48 + n % 10) :: acc)

def natToDec (n : ℕ) : Str := if n = 0 then ['0'] else natToDecAux (n + 1) n []

def intToDec (i : ℤ) : Str :=
  if i < 0 then '-' :: natToDec i.natAbs else natToDec i.natAbs

/-- Base-36 digit as Number.prototype.toString(36) renders it. -/
def base36Digit (n : ℕ) : Char :=
  if n < 10 then Char.ofNat (48 + n) else Char.ofNat (87 + n)

def natToBase36Aux : ℕ → ℕ → Str → Str
  | 0, _, acc => acc
  | fuel + 1, n, acc =>
    if n = 0 then acc else natToBase36Aux fuel (n / 36) (base36Digit (n % 36) :: acc)

def natToBase36 (n : ℕ) : Str := if n = 0 then ['0'] else natToBase36Aux (n + 1) n []

/-- JS ToInt32: wrap an integer into [-2^31, 2^31). -/
def wrap32 (n : ℤ) : ℤ := (n + 2 ^ 31) % 2 ^ 32 - 2 ^ 31

/-- One step of generateFileHash's loop:
hash = ((hash << 5) - hash) + charCode, then hash = hash & hash (ToInt32).
The shift operates on the ToInt32 of hash, which the loop keeps in
Int32 range, so only the shift result needs wrapping. -/
def hashStep (h : ℤ) (c : Char) : ℤ :=
  wrap32 (wrap32 (h * 32) - h + c.toNat)

/-- The 32-bit rolling hash of generateFileHash. -/
def hashOfString (s : Str) : ℤ := s.foldl hashStep 0

/-- generateFileHash: hash of "name-size-lastModified", absolute value,
base-36 encoded. -/
def generateFileHash (f : FileMeta) : Str :=
  let hashString := f.name ++ '-' :: natToDec f.size ++ '-' :: intToDec f.lastModified
  natToBase36 (hashOfString hashString).natAbs

/-- text.replace(/\s+/g, ' '): each maximal whitespace run becomes one
space. -/
def collapseWsRuns : Str → List Char
  | [] => []
  | c :: t =>
    if isWsChar c then
      match t with
      | d :: _ => if isWsChar d then collapseWsRuns t else ' ' :: collapseWsRuns t
      | [] => [' ']
    else c :: collapseWsRuns t

/-- takeWhile never lengthens a list (used for termination below). -/
theorem takeWhile_length_le (p : α → Bool) : ∀ l : List α, (l.takeWhile p).length ≤ l.length
  | [] => by simp
  | a :: t => by
    rw [List.takeWhile_cons]
    by_cases h : p a
    · simp only [h, if_true, List.length_cons]
      exact Nat.succ_le_succ (takeWhile_length_le p t)
    · simp [h]

/-- text.replace(/\n\s*\n/g, '\n'): a greedy match starts at a newline
whose following whitespace run contains another newline and extends
through the last newline of that run; scanning resumes after the
replacement. -/
def collapseNlRuns : Str → List Char
  | [] => []
  | c :: t =>
    if c = '\n' ∧ '\n' ∈ t.takeWhile (fun x => isWsChar x) then
      let pre := t.takeWhile (fun x => isWsChar x)
      let sfx := (pre.reverse.takeWhile (fun x => x ≠ '\n')).reverse
      '\n' :: collapseNlRuns (sfx ++ t.drop pre.length)
    else c :: collapseNlRuns t
termination_by s => s.length
decreasing_by
  · have h1 : (List.takeWhile (fun x => isWsChar x) t).length ≤ t.length :=
      takeWhile_length_le _ _
    have h2 : ((List.takeWhile (fun x => isWsChar x) t).reverse.takeWhile
        (fun x => decide (x ≠ '\n'))).length ≤ (List.takeWhile (fun x => isWsChar x) t).length := by
      have := takeWhile_length_le (fun x => decide (x ≠ '\n'))
        (List.takeWhile (fun x => isWsChar x) t).reverse
      simpa using this
    simp only [List.length_append, List.length_reverse, List.length_drop, List.length_cons]
    omega
  · simp

/-- compressText with the default options (enableCompression = true). -/
def compressText (text : Str) : Str :=
  if text.length < compressionThreshold then text
  else jsTrim (collapseNlRuns (collapseWsRuns text))

/-- decompressText is the identity in the source. -/
def decompressText (text : Str) : Str := text

/-- The cache's backing store: none models the localStorage key being
absent (or the cache cleared). -/
structure CacheState where
  store : Option (List CachedDoc)

def emptyCache : CacheState := ⟨none⟩

/-- getCachedDocuments: read the stored collection and keep entries whose
age is under maxAge. -/
def getCachedDocuments (now : ℤ) (st : CacheState) : List CachedDoc :=
  match st.store with
  | none => []
  | some docs => docs.filter fun d => decide (now - d.timestamp < maxAge)

/-- clearCache: remove the stored collection. -/
def clearCache (_ : CacheState) : CacheState := ⟨none⟩

/-- Stable insertion used to model sort((a, b) => b.timestamp - a.timestamp):
the new element goes after every element with an equal or larger
timestamp. -/
def insertByTs (x : CachedDoc) : List CachedDoc → List CachedDoc
  | [] => [x]
  | y :: t => if y.timestamp < x.timestamp then x :: y :: t else y :: insertByTs x t

/-- Stable sort by timestamp, most recent first. -/
def sortByTsDesc (l : List CachedDoc) : List CachedDoc :=
  l.foldl (fun acc x => insertByTs x acc) []

/-- The size-capping step of saveToCache: over maxSize entries are sorted
most-recent-first and truncated to maxSize. -/
def limitDocs (docs : List CachedDoc) : List CachedDoc :=
  if docs.length > maxSize then (sortByTsDesc docs).take maxSize else docs

/-- saveToCache: persist the whole collection; on a backing-store write
failure the catch clears the cache. -/
def saveToCache (writeOk : Bool) (docs : List CachedDoc) (st : CacheState) : CacheState :=
  if writeOk then ⟨some (limitDocs docs)⟩ else clearCache st

/-- isCached. -/
def isCached (now : ℤ) (f : FileMeta) (st : CacheState) : Bool :=
  let hash := generateFileHash f
  (getCachedDocuments now st).any fun d => decide (d.hash = hash)

/-- Refresh the timestamp of the first entry with the given hash (the
in-place cached.timestamp = Date.now() mutation). -/
def touchFirst (h : Str) (now : ℤ) : List CachedDoc → List CachedDoc
  | [] => []
  | d :: t =>
    if d.hash = h then { d with timestamp := now } :: t else d :: touchFirst h now t

/-- getCachedText: on a hit, refresh the entry's timestamp, write the
whole collection back, and return the decompressed text. -/
def getCachedText (writeOk : Bool) (now : ℤ) (f : FileMeta) (st : CacheState) :
    Option Str × CacheState :=
  let hash := generateFileHash f
  let docs := getCachedDocuments now st
  match docs.find? (fun d => decide (d.hash = hash)) with
  | some cached => (some (decompressText cached.text), saveToCache writeOk (touchFirst hash now docs) st)
  | none => (none, st)

/-- cacheDocument: drop any entry with the same hash, prepend the new
entry, and persist. -/
def cacheDocument (writeOk : Bool) (now : ℤ) (f : FileMeta) (text : Str)
    (isScanned ocrApplied : Bool) (st : CacheState) : CacheState :=
  let hash := generateFileHash f
  let docs := getCachedDocuments now st
  let docs1 := docs.eraseP fun d => decide (d.hash = hash)
  let newDoc : CachedDoc :=
    { id := hash, fileName := f.name, text := compressText text, fileType := f.type,
      fileSize := f.size, isScanned := isScanned, ocrApplied := ocrApplied,
      timestamp := now, hash := hash }
  saveToCache writeOk (newDoc :: docs1) st

/-- getCacheStats' result shape. -/
structure CacheStats where
  totalDocuments : ℕ
  totalSize : ℕ
  oldestDocument : Option ℤ
  newestDocument : Option ℤ

/-- getCacheStats. -/
def getCacheStats (now : ℤ) (st : CacheState) : CacheStats :=
  let docs := getCachedDocuments now st
  { totalDocuments := docs.length,
    totalSize := (docs.map fun d => d.text.length).sum,
    oldestDocument := if 0 < docs.length then (docs.map fun d => d.timestamp).min? else none,
    newestDocument := if 0 < docs.length then (docs.map fun d => d.timestamp).max? else none }

/-- One recorded cacheDocument call (its arguments plus whether the
backing-store write succeeds and the clock at the call). -/
structure CacheCall where
  writeOk : Bool
  now : ℤ
  file : FileMeta
  text : Str
  isScanned : Bool
  ocrApplied : Bool

/-- Run a sequence of cacheDocument calls. -/
def runCacheCalls : List CacheCall → CacheState → CacheState
  | [], st => st
  | c :: rest, st =>
    runCacheCalls rest (cacheDocument c.writeOk c.now c.file c.text c.isScanned c.ocrApplied st)

/-- Number of entries physically in the backing store. -/
def storeCount (st : CacheState) : ℕ :=
  match st.store with
  | none => 0
  | some docs => docs.length

/-- Concrete files for the cache scenarios (distinct fingerprints). -/
def cexFileA : FileMeta := { name := str "a.txt", size := 1, lastModified := 0, type := str "text/plain" }

def cexFileB : FileMeta := { name := str "b.txt", size := 1, lastModified := 0, type := str "text/plain" }

/-- Cache state after caching file A at time 0 and file B at time 1:
the stored order is [entry for B, entry for A]. -/
def cexHitState : CacheState :=
  cacheDocument true 1 cexFileB (str "text b") false false
    (cacheDocument true 0 cexFileA (str "text a") false false emptyCache)

/-- The entry cacheDocument built for file A in cexHitState. -/
def cexEntryA : CachedDoc :=
  { id := generateFileHash cexFileA, fileName := str "a.txt", text := str "text a",
    fileType := str "text/plain", fileSize := 1, isScanned := false, ocrApplied := false,
    timestamp := 0, hash := generateFileHash cexFileA }

theorem insertByTs_length (x : CachedDoc) : ∀ l : List CachedDoc,
    (insertByTs x l).length = l.length + 1
  | [] => rfl
  | y :: t => by
    unfold insertByTs
    by_cases h : y.timestamp < x.timestamp
    · simp [h]
    · simp [h, insertByTs_length x t]

theorem sortByTsDesc_length (l : List CachedDoc) : (sortByTsDesc l).length = l.length := by
  suffices h : ∀ (l acc : List CachedDoc),
      (l.foldl (fun acc x => insertByTs x acc) acc).length = acc.length + l.length by
    simpa using h l []
  intro l
  induction l with
  | nil => simp
  | cons x t ih =>
    intro acc
    simp only [List.foldl_cons, ih, insertByTs_length, List.length_cons]
    omega

theorem limitDocs_length_le (docs : List CachedDoc) : (limitDocs docs).length ≤ maxSize := by
  unfold limitDocs
  by_cases h : docs.length > maxSize
  · simp [h, sortByTsDesc_length]
  · simp only [h, if_false]
    omega

theorem storeCount_cacheDocument_le (writeOk : Bool) (now : ℤ) (f : FileMeta) (text : Str)
    (s o : Bool) (st : CacheState) :
    storeCount (cacheDocument writeOk now f text s o st) ≤ maxSize := by
  unfold cacheDocument saveToCache
  cases writeOk
  · simp [clearCache, storeCount]
  · simpa [storeCount] using limitDocs_length_le _

theorem storeCount_runCacheCalls_le (calls : List CacheCall) (st : CacheState)
    (h : storeCount st ≤ maxSize) : storeCount (runCacheCalls calls st) ≤ maxSize := by
  induction calls generalizing st with
  | nil => exact h
  | cons c rest ih => exact ih _ (storeCount_cacheDocument_le _ _ _ _ _ _ _)

theorem getCacheStats_totalDocuments_le (now : ℤ) (st : CacheState) :
    (getCacheStats now st).totalDocuments ≤ storeCount st := by
  unfold getCacheStats getCachedDocuments storeCount
  cases st.store with
  | none => simp
  | some docs => simpa using List.length_filter_le _ docs

/-- The timestamp-touch rewrite keeps the list length. -/
theorem touchFirst_length (h : Str) (now : ℤ) : ∀ l : List CachedDoc,
    (touchFirst h now l).length = l.length
  | [] => rfl
  | d :: t => by
    unfold touchFirst
    by_cases hd : d.hash = h
    · simp [hd]
    · simp [hd, touchFirst_length h now t]

/-- The timestamp-touch rewrite keeps every entry's hash and position. -/
theorem touchFirst_map_hash (h : Str) (now : ℤ) : ∀ l : List CachedDoc,
    (touchFirst h now l).map (fun d => d.hash) = l.map fun d => d.hash
  | [] => rfl
  | d :: t => by
    unfold touchFirst
    by_cases hd : d.hash = h
    · simp [hd]
    · simp [hd, touchFirst_map_hash h now t]

/-- After the touch, the first entry with the given hash carries the new
timestamp and is otherwise the entry found before. -/
theorem touchFirst_find? (h : Str) (now : ℤ) : ∀ (l : List CachedDoc) (e : CachedDoc),
    l.find? (fun d => decide (d.hash = h)) = some e →
    (touchFirst h now l).find? (fun d => decide (d.hash = h)) =
      some { e with timestamp := now }
  | [], e => by simp
  | d :: t, e => by
    intro hfind
    unfold touchFirst
    by_cases hd : d.hash = h
    · rw [List.find?_cons_of_pos _ (by simpa using hd)] at hfind
      simp only [hd, if_true]
      rw [List.find?_cons_of_pos _ (by simp [hd])]
      simp_all
    · rw [List.find?_cons_of_neg _ (by simpa using hd)] at hfind
      simp only [hd, if_false]
      rw [List.find?_cons_of_neg _ (by simpa using hd)]
      exact touchFirst_find? h now t e hfind


/-- C2: starting from an empty cache with default options, after any
finite sequence of cacheDocument calls (arbitrary files, texts, clock
values and backing-store outcomes), getCacheStats().totalDocuments is at
most maxSize = 50. -/
theorem cache_bound_invariant (calls : List CacheCall) (queryTime : ℤ) :
    (getCacheStats queryTime (runCacheCalls calls emptyCache)).totalDocuments ≤ 50 :=
  le_trans (getCacheStats_totalDocuments_le _ _)
    (storeCount_runCacheCalls_le calls emptyCache (by simp [emptyCache, storeCount]))

/-- C3 counterexample: cache file A at time 0 and file B at time 1 (stored
order [B, A]), then a getCachedText hit on A at time 2.  The hit returns
A's text and refreshes A's timestamp to 2, but the stored order is still
[B, A]: the hit entry is not moved to the front of the stored order. -/
theorem getCachedText_hit_front_cex :
    (getCachedText true 2 cexFileA cexHitState).fst = some (str "text a") ∧
    ((getCachedText true 2 cexFileA cexHitState).snd.store.map fun l =>
        l.map fun d => (d.hash, d.timestamp)) =
      some [(generateFileHash cexFileB, (1 : ℤ)), (generateFileHash cexFileA, (2 : ℤ))] ∧
    generateFileHash cexFileB ≠ generateFileHash cexFileA := by decide

/-- C3 as amended: a getCachedText hit (with the stored collection within
the size cap, as in every state the cache's own writes produce) returns
the found entry's decompressed text and writes back the same collection
in the same order, with only the found entry's timestamp refreshed to
the current time; the entry is not repositioned. -/
theorem getCachedText_hit_refreshes (now : ℤ) (f : FileMeta) (st : CacheState)
    (e : CachedDoc)
    (hfind : (getCachedDocuments now st).find?
      (fun d => decide (d.hash = generateFileHash f)) = some e)
    (hlen : (getCachedDocuments now st).length ≤ maxSize) :
    (getCachedText true now f st).fst = some (decompressText e.text) ∧
    (getCachedText true now f st).snd.store =
      some (touchFirst (generateFileHash f) now (getCachedDocuments now st)) ∧
    (touchFirst (generateFileHash f) now (getCachedDocuments now st)).map
        (fun d => d.hash) =
      (getCachedDocuments now st).map (fun d => d.hash) ∧
    (touchFirst (generateFileHash f) now (getCachedDocuments now st)).find?
        (fun d => decide (d.hash = generateFileHash f)) =
      some { e with timestamp := now } := by
  refine ⟨?_, ?_, touchFirst_map_hash _ _ _, touchFirst_find? _ _ _ _ hfind⟩
  · unfold getCachedText
    dsimp only
    rw [hfind]
  · unfold getCachedText
    dsimp only
    rw [hfind]
    simp only [saveToCache, if_true, limitDocs]
    rw [if_neg]
    simp only [touchFirst_length]
    omega

theorem getCachedText_hit_refreshes_witness :
    (getCachedText true 2 cexFileA cexHitState).fst = some (decompressText cexEntryA.text) ∧
    (getCachedText true 2 cexFileA cexHitState).snd.store =
      some (touchFirst (generateFileHash cexFileA) 2 (getCachedDocuments 2 cexHitState)) ∧
    (touchFirst (generateFileHash cexFileA) 2 (getCachedDocuments 2 cexHitState)).map
        (fun d => d.hash) =
      (getCachedDocuments 2 cexHitState).map (fun d => d.hash) ∧
    (touchFirst (generateFileHash cexFileA) 2 (getCachedDocuments 2 cexHitState)).find?
        (fun d => decide (d.hash = generateFileHash cexFileA)) =
      some { cexEntryA with timestamp := 2 } :=
  getCachedText_hit_refreshes 2 cexFileA cexHitState cexEntryA (by decide) (by decide)

/-- C9: a getCachedText hit writes the whole updated collection back, and
when that backing-store write fails the catch clears the entire cache:
after the failed write the store is gone and every later stats query
reports zero documents. -/
theorem getCachedText_write_failure_clears (now : ℤ) (f : FileMeta) (st : CacheState)
    (e : CachedDoc)
    (hfind : (getCachedDocuments now st).find?
      (fun d => decide (d.hash = generateFileHash f)) = some e) :
    (getCachedText false now f st).snd.store = none ∧
    ∀ t : ℤ, (getCacheStats t (getCachedText false now f st).snd).totalDocuments = 0 := by
  have hstore : (getCachedText false now f st).snd.store = none := by
    unfold getCachedText
    dsimp only
    rw [hfind]
    simp [saveToCache, clearCache]
  refine ⟨hstore, fun t => ?_⟩
  simp [getCacheStats, getCachedDocuments, hstore]

theorem getCachedText_write_failure_clears_witness :
    (getCachedText false 2 cexFileA cexHitState).snd.store = none ∧
    ∀ t : ℤ, (getCacheStats t (getCachedText false 2 cexFileA cexHitState).snd).totalDocuments = 0 :=
  getCachedText_write_failure_clears 2 cexFileA cexHitState cexEntryA (by decide)


end Cache

/-!
Server-side document processors: the two processDocument variants of
src/lib/document-processor.ts (the pdf-parse based one and the
pdfjs-dist based one).  Each external library call is abstracted as a
field of an environment record holding that call's outcome, and a thrown
JS error becomes an Except.error carrying the error message.
-/

namespace DocProc

/-- Remove the first occurrence of a character
(JS String.prototype.replace with a plain-string pattern). -/
def removeFirst (ch : Char) : Str → Str
  | [] => []
  | c :: t => if c = ch then t else c :: removeFirst ch t

/-- wordCount of the first variant: text.split(/\s+/).filter(Boolean).length. -/
def wordCount (text : Str) : ℕ :=
  ((jsSplit isWsChar text).filter fun w => decide (w ≠ [])).length

/-- Outcomes of the external calls the first processDocument variant makes. -/
structure DocEnv1 where
  /-- pdf-parse: (pdf.text, pdf.numpages), or the parse throwing. -/
  pdfParse : Except Str (Str × ℕ)
  /-- applyOcrToPdf's returned text (its own catch returns ''). -/
  ocrText : Str
  /-- mammoth.extractRawText's value, or its throwing. -/
  docxResult : Except Str Str
  /-- pandoc conversion: some converted text when pandoc is available and
  succeeds, none when any pandoc step throws. -/
  pandoc : Option Str
  /-- fs.readFile(filePath, utf-8). -/
  rawRead : Except Str Str

/-- What processPdf (first variant) returns. -/
structure PdfParseOut where
  text : Str
  pageCount : ℕ
  isScanned : Bool

/-- processPdf of the first variant: the scan heuristic is
text.length / numpages < 100; a total parse failure yields empty text
and isScanned = true. -/
def processPdf1 (env : DocEnv1) : PdfParseOut :=
  match env.pdfParse with
  | .ok (text, numpages) =>
    { text := text, pageCount := numpages,
      isScanned := decide ((text.length : ℚ) / (numpages : ℚ) < 100) }
  | .error _ => { text := [], pageCount := 0, isScanned := true }

/-- processDoc of the first variant: pandoc when available, otherwise the
raw bytes as text, otherwise '' from the outer catch. -/
def processDoc1 (env : DocEnv1) : Str :=
  match env.pandoc with
  | some t => t
  | none =>
    match env.rawRead with
    | .ok v => v
    | .error _ => []

/-- ProcessedDocument of the first variant (the fields the claims read;
title/author/processingTime are dropped). -/
structure ProcessedDoc1 where
  text : Str
  wordCount : ℕ
  isScanned : Bool
  ocrApplied : Bool
deriving DecidableEq

/-- processDocument of the first variant (document-processor.ts lines
39-96): dispatch on the extension; an unknown extension throws, and the
outer catch rethrows with a "Failed to process document:" prefix. -/
def processDocument1 (ext : Str) (env : DocEnv1) : Except Str ProcessedDoc1 :=
  let inner : Except Str (Str × Bool × Bool) :=
    if ext = str ".pdf" then
      let out := processPdf1 env
      if out.isScanned then
        if env.ocrText ≠ [] ∧ env.ocrText.length > out.text.length then
          .ok (env.ocrText, true, true)
        else
          .ok (out.text, true, false)
      else
        .ok (out.text, false, false)
    else if ext = str ".docx" then
      .ok (match env.docxResult with | .ok v => v | .error _ => [], false, false)
    else if ext = str ".doc" then
      .ok (processDoc1 env, false, false)
    else if ext = str ".txt" then
      env.rawRead.map fun t => (t, false, false)
    else
      .error (str "Unsupported file format: " ++ ext)
  match inner with
  | .ok (text, isScanned, ocrApplied) =>
    .ok { text := text, wordCount := wordCount text, isScanned := isScanned,
          ocrApplied := ocrApplied }
  | .error m => .error (str "Failed to process document: " ++ m)

/-- Outcomes of the external calls the second processDocument variant
makes. -/
structure DocEnv2 where
  /-- fs.statSync succeeding (a throw there reaches the outer catch). -/
  statOk : Bool
  fileSize : ℕ
  /-- pdfjs getDocument and the page walk: the per-page texts (each page's
  text-content items joined with spaces), or none when the load throws. -/
  pdfPages : Option (List Str)
  /-- mammoth.extractRawText. -/
  docxResult : Except Str Str
  /-- fs.readFileSync(filePath, utf8) for .doc and .txt. -/
  rawRead : Except Str Str

/-- The second variant's result (text plus its metadata record). -/
structure ProcessedDoc2 where
  text : Str
  isScanned : Bool
  ocrApplied : Bool
  pageCount : ℕ
  fileType : Str
  fileSize : ℕ
deriving DecidableEq

/-- The pdf text assembly of the second variant: each page's text plus a
newline, concatenated. -/
def assemblePdfText (pages : List Str) : Str :=
  (pages.map fun p => p ++ ['\n']).flatten

/-- processDocument of the second variant (document-processor.ts lines
341-429): per-format branches catch their own errors and substitute
error strings; an unknown extension produces a placeholder text; the
function itself never throws (the outer catch returns an error result). -/
def processDocument2 (ext : Str) (env : DocEnv2) : ProcessedDoc2 :=
  if env.statOk then
    if ext = str ".pdf" then
      match env.pdfPages with
      | some pages =>
        let pdfText := assemblePdfText pages
        if (jsTrim pdfText).length < 100 ∧ pages.length > 0 then
          { text := str "This appears to be a scanned document that requires OCR processing.",
            isScanned := true, ocrApplied := false, pageCount := pages.length,
            fileType := removeFirst '.' ext, fileSize := env.fileSize }
        else
          { text := pdfText, isScanned := false, ocrApplied := false,
            pageCount := pages.length, fileType := removeFirst '.' ext,
            fileSize := env.fileSize }
      | none =>
        { text := str "Error processing PDF document", isScanned := false,
          ocrApplied := false, pageCount := 0, fileType := removeFirst '.' ext,
          fileSize := env.fileSize }
    else if ext = str ".docx" then
      { text := match env.docxResult with
          | .ok v => v
          | .error _ => str "Error processing DOCX document",
        isScanned := false, ocrApplied := false, pageCount := 0,
        fileType := removeFirst '.' ext, fileSize := env.fileSize }
    else if ext = str ".doc" ∨ ext = str ".txt" then
      { text := match env.rawRead with
          | .ok v => v
          | .error _ => str "Error processing text document",
        isScanned := false, ocrApplied := false, pageCount := 0,
        fileType := removeFirst '.' ext, fileSize := env.fileSize }
    else
      { text := str "Unsupported file format: " ++ ext, isScanned := false,
        ocrApplied := false, pageCount := 0, fileType := removeFirst '.' ext,
        fileSize := env.fileSize }
  else
    { text := str "Error processing document", isScanned := false, ocrApplied := false,
      pageCount := 0, fileType := removeFirst '.' ext, fileSize := 0 }

end DocProc

/-!
Client-side fast processor: FastDocumentProcessor of
src/lib/fast-document-processor.ts.  A pdf document is abstracted as the
list of its per-page extraction results (extractPageText already maps a
per-page failure to an inline error marker, so each page yields some
string); FileReader-based branches resolve in both onload and onerror
and so never throw.
-/

namespace FastProc

/-- isLikelyScanned: text.replace(/\s+/g, '').trim().length < 100
(removing every whitespace run removes every whitespace character). -/
def isLikelyScanned (text : Str) : Bool :=
  (jsTrim (text.filter fun c => !(isWsChar c))).length < 100

/-- JS String.prototype.split on a plain one-character separator (every
occurrence splits, no run merging). -/
def splitOnChar (ch : Char) : Str → List Str
  | [] => [[]]
  | c :: t =>
    if c = ch then [] :: splitOnChar ch t
    else
      match splitOnChar ch t with
      | f :: rs => (c :: f) :: rs
      | [] => [[c]]

/-- file.name.split('.').pop()?.toLowerCase(). -/
def extOf (name : Str) : Str :=
  lowerStr (((splitOnChar '.' name).getLast?).getD [])

/-- The pages getPage(startPage..endPage) covers, as list indices
[start, fin): processPageChunk awaits them together and Promise.all
returns their results in request order. -/
def slicePages (pages : List Str) (start fin : ℕ) : List Str :=
  (pages.drop start).take (fin - start)

/-- The chunk loop of extractFullText: from start, take chunks of size c
until the page count is reached, assembling results in page order.  The
source's loop does not terminate for c = 0 (start += chunkSize makes no
progress); the model returns [] there, and every statement about the
loop assumes 0 < c. -/
def gatherChunks (pages : List Str) (c start : ℕ) : List Str :=
  if _h : start < pages.length ∧ 0 < c then
    slicePages pages start (min (start + c) pages.length) ++ gatherChunks pages c (start + c)
  else []
termination_by pages.length - start
decreasing_by omega

/-- extractFullText: chunked extraction assembled with chunks.join('\n'). -/
def extractFullText (pages : List Str) (c : ℕ) : Str :=
  joinNl (gatherChunks pages c 0)

/-- extractQuickText: first min(3, numPages) pages, newline-terminated,
plus the quick-extraction marker.  Its result is only handed to the
progress callback and is superseded by the full extraction. -/
def extractQuickText (pages : List Str) : Str :=
  ((pages.take (min 3 pages.length)).map fun p => p ++ ['\n']).flatten ++
    str "\n[Quick extraction - processing remaining pages...]"

/-- ProcessingOptions with the DEFAULT_OPTIONS already merged in. -/
structure FastOptions where
  enableStreaming : Bool
  maxConcurrentPages : ℕ
  enableFastMode : Bool
  enableFallback : Bool

def defaultOptions : FastOptions :=
  { enableStreaming := true, maxConcurrentPages := 4, enableFastMode := true,
    enableFallback := true }

/-- ProcessingResult (processingTime dropped). -/
structure FastResult where
  text : Str
  isScanned : Bool
  ocrApplied : Bool
  pageCount : Option ℕ
  error : Option Str
deriving DecidableEq

/-- Outcomes of the external calls the fast processor makes. -/
structure FastEnv where
  fileName : Str
  /-- getDocument plus the page walk: per-page texts, or the load throwing
  with a message. -/
  pdfLoad : Except Str (List Str)
  /-- mammoth.extractRawText value, or its throwing with a message. -/
  docxResult : Except Str Str
  /-- FileReader outcome for the txt/doc/generic branches. -/
  readerOk : Bool
  readerText : Str
  /-- file.text() for the pdf fallback. -/
  fileText : Except Str Str

/-- processPdfFallback: read the file as text; keep it only when over 100
characters, otherwise throw. -/
def processPdfFallback (env : FastEnv) : Except Str FastResult :=
  match env.fileText with
  | .ok t =>
    if t.length > 100 then
      .ok { text := t, isScanned := false, ocrApplied := false, pageCount := some 1,
            error := none }
    else
      .error (str "Unable to process PDF with available methods")
  | .error m => .error m

/-- processPdf: full chunked extraction (fast mode additionally runs the
quick pass first, whose result the full text supersedes); on a load
failure, the fallback when enabled, otherwise the rethrown error. -/
def processPdf (env : FastEnv) (opts : FastOptions) : Except Str FastResult :=
  match env.pdfLoad with
  | .ok pages =>
    let fullText := extractFullText pages opts.maxConcurrentPages
    .ok { text := fullText, isScanned := isLikelyScanned fullText, ocrApplied := false,
          pageCount := some pages.length, error := none }
  | .error m =>
    if opts.enableFallback then processPdfFallback env else .error m

def processDocx (env : FastEnv) : Except Str FastResult :=
  match env.docxResult with
  | .ok v =>
    .ok { text := if v = [] then str "[No text could be extracted from this DOCX file]" else v,
          isScanned := false, ocrApplied := false, pageCount := none, error := none }
  | .error m => .error (str "Failed to process DOCX: " ++ m)

def processText (env : FastEnv) : FastResult :=
  if env.readerOk then
    { text := if env.readerText = [] then str "[Empty text file]" else env.readerText,
      isScanned := false, ocrApplied := false, pageCount := none, error := none }
  else
    { text := str "[Error reading text file]", isScanned := false, ocrApplied := false,
      pageCount := none, error := none }

def processLegacyDoc (env : FastEnv) : FastResult :=
  if env.readerOk then
    { text := if env.readerText = [] then str "[Unable to extract text from this DOC file]"
        else env.readerText,
      isScanned := false, ocrApplied := false, pageCount := none, error := none }
  else
    { text := str "[Error reading DOC file - please convert to DOCX or PDF]",
      isScanned := false, ocrApplied := false, pageCount := none, error := none }

def processGeneric (env : FastEnv) : FastResult :=
  if env.readerOk then
    { text := if env.readerText = [] then str "[No text could be extracted from this file type]"
        else env.readerText,
      isScanned := false, ocrApplied := false, pageCount := none, error := none }
  else
    { text := str "[Unsupported file type - please use PDF, DOCX, DOC, or TXT]",
      isScanned := false, ocrApplied := false, pageCount := none, error := none }

/-- processDocument: extension dispatch plus the top-level catch that
turns any thrown error into an error result. -/
def processDocument (env : FastEnv) (opts : FastOptions) : FastResult :=
  let ext := extOf env.fileName
  let r : Except Str FastResult :=
    if ext = str "pdf" then processPdf env opts
    else if ext = str "docx" then processDocx env
    else if ext = str "txt" then .ok (processText env)
    else if ext = str "doc" then .ok (processLegacyDoc env)
    else .ok (processGeneric env)
  match r with
  | .ok res => res
  | .error m =>
    { text := str "[Error processing document: " ++ m ++ str "]", isScanned := false,
      ocrApplied := false, pageCount := none, error := some m }

end FastProc

/-!
The OCR routine applyOcrToPdf of document-processor.ts (lines 142-194)
as a state machine: each awaited operation is a step that the
environment may mark as the one that throws; the try/catch has no
finally, so the observable outcome records which resources were
created, removed and released when the function returned.
-/

namespace Ocr

/-- The awaited operations of applyOcrToPdf, in source order. -/
inductive OcrStep where
  | mkdtemp
  | pdfRead
  | pdfParse
  | convert (page : ℕ)
  | createWorker
  | sharp (page : ℕ)
  | recognize (page : ℕ)
  | terminateWorker
  | removeDir
deriving DecidableEq

/-- Which operation throws during this run (none = all succeed),
plus the pdf's page count. -/
structure OcrEnv where
  pageCount : ℕ
  failAt : Option OcrStep
deriving DecidableEq

/-- Does this step throw in this run? -/
def fails (env : OcrEnv) (s : OcrStep) : Bool := decide (env.failAt = some s)

/-- What the caller can observe when applyOcrToPdf returns. -/
structure OcrOutcome where
  result : Str
  tempDirCreated : Bool
  tempDirRemoved : Bool
  workerCreated : Bool
  workerTerminated : Bool
deriving DecidableEq

/-- The all-steps-succeeded outcome: per-page texts joined with blank
lines, temp directory removed, worker terminated. -/
def successOutcome (env : OcrEnv) (recText : ℕ → Str) : OcrOutcome :=
  { result := ((List.range env.pageCount).map fun i => recText (i + 1) ++ str "\n\n").flatten,
    tempDirCreated := true, tempDirRemoved := true, workerCreated := true,
    workerTerminated := true }

/-- applyOcrToPdf: mkdtemp; read and parse the pdf; convert each page to
an image; create the OCR worker; per page sharpen then recognize; then
worker.terminate() and fs.rm(tempDir) — the last two only on the
success path, since any throw jumps to the catch, which returns ''
without any cleanup. -/
def applyOcrToPdf (env : OcrEnv) (recText : ℕ → Str) : OcrOutcome :=
  if fails env .mkdtemp then
    { result := [], tempDirCreated := false, tempDirRemoved := false,
      workerCreated := false, workerTerminated := false }
  else if fails env .pdfRead || fails env .pdfParse
      || (List.range env.pageCount).any (fun i => fails env (.convert (i + 1))) then
    { result := [], tempDirCreated := true, tempDirRemoved := false,
      workerCreated := false, workerTerminated := false }
  else if fails env .createWorker then
    { result := [], tempDirCreated := true, tempDirRemoved := false,
      workerCreated := false, workerTerminated := false }
  else if (List.range env.pageCount).any
      (fun i => fails env (.sharp (i + 1)) || fails env (.recognize (i + 1))) then
    { result := [], tempDirCreated := true, tempDirRemoved := false,
      workerCreated := true, workerTerminated := false }
  else if fails env .terminateWorker then
    { result := [], tempDirCreated := true, tempDirRemoved := false,
      workerCreated := true, workerTerminated := false }
  else if fails env .removeDir then
    { result := [], tempDirCreated := true, tempDirRemoved := false,
      workerCreated := true, workerTerminated := true }
  else successOutcome env recText

end Ocr

/-!
Clonability pass: TextSimilarityAnalyzer and the POST handler of the
comprehensive clonability route (the similarity-analysis variant with
the five-document mock corpus).  All similarity measures are exact;
cosineSimilarity is real-valued because the source divides by
Math.sqrt(normA) * Math.sqrt(normB).
-/

namespace Clona

/-- a.toLowerCase().split(/\W+/).filter(word => word.length > 2). -/
def wordsOver2 (s : Str) : List Str :=
  (jsSplit (fun c => !(isWordChar c)) (lowerStr s)).filter fun w => decide (w.length > 2)

/-- jaccardSimilarity on the filtered word sets. -/
def jaccardSimilarity (a b : Str) : ℚ :=
  let inter := setInter (wordsOver2 a) (wordsOver2 b)
  let union := setUnion (wordsOver2 a) (wordsOver2 b)
  if union.length > 0 then (inter.length : ℚ) / (union.length : ℚ) else 0

/-- cosineSimilarity: term-frequency vectors over the set of all words,
dot product divided by the product of the Euclidean norms (0 when the
denominator is 0). -/
noncomputable def cosineSimilarity (a b : Str) : ℝ :=
  let wordsA := wordsOver2 a
  let wordsB := wordsOver2 b
  let allWords := (wordsA ++ wordsB).toFinset
  let dot : ℝ := ∑ w ∈ allWords, (wordsA.count w : ℝ) * (wordsB.count w : ℝ)
  let normA : ℝ := ∑ w ∈ allWords, (wordsA.count w : ℝ) * (wordsA.count w : ℝ)
  let normB : ℝ := ∑ w ∈ allWords, (wordsB.count w : ℝ) * (wordsB.count w : ℝ)
  let denom : ℝ := Real.sqrt normA * Real.sqrt normB
  if denom > 0 then dot / denom else 0

/-- Length of the longest common subsequence (the dp table's corner; the
source reconstructs the subsequence and takes its length, which equals
the dp value). -/
def lcsLen : List Str → List Str → ℕ
  | [], _ => 0
  | _ :: _, [] => 0
  | a :: as, b :: bs =>
    if a = b then lcsLen as bs + 1
    else max (lcsLen as (b :: bs)) (lcsLen (a :: as) bs)

/-- lcsSimilarity: LCS length over the longer filtered word list. -/
def lcsSimilarity (a b : Str) : ℚ :=
  let wa := wordsOver2 a
  let wb := wordsOver2 b
  let maxLength := max wa.length wb.length
  if maxLength > 0 then (lcsLen wa wb : ℚ) / (maxLength : ℚ) else 0

/-- ngramSimilarity with n = 3 (the only n used): Jaccard index of the
character-trigram sets of the lowercased raw texts. -/
def ngramSimilarity (a b : Str) : ℚ :=
  let inter := setInter (windows3 (lowerStr a)) (windows3 (lowerStr b))
  let union := setUnion (windows3 (lowerStr a)) (windows3 (lowerStr b))
  if union.length > 0 then (inter.length : ℚ) / (union.length : ℚ) else 0

/-- comprehensiveSimilarity's overall value: the fixed 30/30/20/20
weighted average. -/
noncomputable def comprehensiveSimilarity (a b : Str) : ℝ :=
  (jaccardSimilarity a b : ℝ) * 0.3 + cosineSimilarity a b * 0.3 +
    (lcsSimilarity a b : ℝ) * 0.2 + (ngramSimilarity a b : ℝ) * 0.2

def mockDoc1 : Str :=
  str "Patient presented with fever and cough. Prescribed antibiotics. Temperature was 102°F. Recommended rest and fluids."

def mockDoc2 : Str :=
  str "Patient admitted for chest pain. ECG and labs ordered. No signs of myocardial infarction. Discharged with follow-up."

def mockDoc3 : Str :=
  str "Routine checkup. No abnormal findings. Patient reports feeling well. Blood pressure normal. Weight stable."

def mockDoc4 : Str :=
  str "Diabetes management review. Blood glucose levels stable. Medication compliance good. No complications noted."

def mockDoc5 : Str :=
  str "Post-surgery follow-up appointment. Incision healing well. No signs of infection. Patient reports minimal pain."

/-- The contents of the mockDocuments corpus, in array order. -/
def mockDocuments : List Str := [mockDoc1, mockDoc2, mockDoc3, mockDoc4, mockDoc5]

/-- One iteration of the POST handler's maximum-similarity loop
(replace the running maximum on a strictly larger similarity). -/
noncomputable def maxStep (text : Str) (m : ℝ) (d : Str) : ℝ :=
  let s := comprehensiveSimilarity text d
  if s > m then s else m

/-- maxSimilarity after the loop over the corpus (initial value 0). -/
noncomputable def maxSimilarity (text : Str) : ℝ :=
  mockDocuments.foldl (maxStep text) 0

/-- originality_score as the code computes it:
Math.round(100 - maxSimilarity * 100). -/
noncomputable def originalityScore (text : Str) : ℤ :=
  jsRoundR (100 - maxSimilarity text * 100)

/-- The specification's formula, stated verbatim for comparison:
100 - round(maxSimilarity x 100). -/
noncomputable def originalityScoreSpec (text : Str) : ℤ :=
  100 - jsRoundR (maxSimilarity text * 100)

/-- An input whose every word has at most two characters contributes an
empty filtered word list, so its Jaccard similarity is 0 against any
document. -/
theorem jaccard_left_empty (a b : Str) (h : wordsOver2 a = []) :
    jaccardSimilarity a b = 0 := by
  unfold jaccardSimilarity setInter setUnion
  rw [h]
  simp

/-- With an empty filtered word list on the left, every term frequency of
the input is 0, so the dot product is 0 and the cosine similarity is 0
whichever branch the denominator test takes. -/
theorem cosine_left_empty (a b : Str) (h : wordsOver2 a = []) :
    cosineSimilarity a b = 0 := by
  unfold cosineSimilarity
  rw [h]
  dsimp only
  have hdot : ∑ w ∈ (([] : List Str) ++ wordsOver2 b).toFinset,
      ((([] : List Str).count w : ℝ) * ((wordsOver2 b).count w : ℝ)) = 0 := by
    apply Finset.sum_eq_zero
    intro w _
    simp
  rw [hdot]
  split_ifs with hd
  · exact zero_div _
  · rfl

theorem lcs_left_empty (a b : Str) (h : wordsOver2 a = []) :
    lcsSimilarity a b = 0 := by
  unfold lcsSimilarity
  rw [h]
  dsimp only
  have hz : lcsLen [] (wordsOver2 b) = 0 := by cases hwb : wordsOver2 b <;> simp [lcsLen]
  rw [hz]
  split_ifs with hd
  · simp
  · rfl


/-- A text whose every token has at most two characters and which was
chosen so that its trigram similarity to the corpus peaks at exactly
1/40 (against the diabetes-management document), making
maxSimilarity x 100 an exact half-integer. -/
def cexCloneText : Str := str "ds no j jq wq xx kx jj xw te xj"

/-- A text with no corpus overlap at all (no shared word over two
characters and no shared trigram). -/
def cexZeroText : Str := str "zq qz zz"

theorem wordsOver2_cexClone : wordsOver2 cexCloneText = [] := by decide

theorem wordsOver2_cexZero : wordsOver2 cexZeroText = [] := by decide

/-- Evaluate ngramSimilarity from the two set sizes. -/
theorem ngram_eval (a b : Str) (i u : ℕ)
    (hi : (setInter (windows3 (lowerStr a)) (windows3 (lowerStr b))).length = i)
    (hu : (setUnion (windows3 (lowerStr a)) (windows3 (lowerStr b))).length = u)
    (hupos : 0 < u) :
    ngramSimilarity a b = (i : ℚ) / u := by
  unfold ngramSimilarity
  dsimp only
  rw [hi, hu, if_pos hupos]

/-- With an empty filtered word list the overall similarity reduces to
the trigram component. -/
theorem comp_left_empty (a b : Str) (h : wordsOver2 a = []) (t : ℚ)
    (ht : ngramSimilarity a b = t) :
    comprehensiveSimilarity a b = (t : ℝ) * 0.2 := by
  unfold comprehensiveSimilarity
  rw [jaccard_left_empty a b h, cosine_left_empty a b h, lcs_left_empty a b h, ht]
  push_cast
  ring

theorem maxStep_eval (text : Str) (m : ℝ) (d : Str) (v : ℝ)
    (hv : comprehensiveSimilarity text d = v) :
    maxStep text m d = if v > m then v else m := by
  unfold maxStep
  rw [hv]

theorem compClone1 : comprehensiveSimilarity cexCloneText mockDoc1 = (1 / 645 : ℝ) := by
  rw [comp_left_empty _ mockDoc1 wordsOver2_cexClone (1 / 129)
    (ngram_eval _ _ 1 129 (by decide) (by decide) (by norm_num))]
  push_cast
  norm_num

theorem compClone2 : comprehensiveSimilarity cexCloneText mockDoc2 = (2 / 685 : ℝ) := by
  rw [comp_left_empty _ mockDoc2 wordsOver2_cexClone (2 / 137)
    (ngram_eval _ _ 2 137 (by decide) (by decide) (by norm_num))]
  push_cast
  norm_num

theorem compClone3 : comprehensiveSimilarity cexCloneText mockDoc3 = (2 / 615 : ℝ) := by
  rw [comp_left_empty _ mockDoc3 wordsOver2_cexClone (2 / 123)
    (ngram_eval _ _ 2 123 (by decide) (by decide) (by norm_num))]
  push_cast
  norm_num

theorem compClone4 : comprehensiveSimilarity cexCloneText mockDoc4 = (1 / 200 : ℝ) := by
  rw [comp_left_empty _ mockDoc4 wordsOver2_cexClone (3 / 120)
    (ngram_eval _ _ 3 120 (by decide) (by decide) (by norm_num))]
  push_cast
  norm_num

theorem compClone5 : comprehensiveSimilarity cexCloneText mockDoc5 = (1 / 330 : ℝ) := by
  rw [comp_left_empty _ mockDoc5 wordsOver2_cexClone (2 / 132)
    (ngram_eval _ _ 2 132 (by decide) (by decide) (by norm_num))]
  push_cast
  norm_num

theorem maxSim_cexClone : maxSimilarity cexCloneText = (1 / 200 : ℝ) := by
  unfold maxSimilarity mockDocuments
  rw [List.foldl_cons, maxStep_eval _ _ _ _ compClone1,
    if_pos (by norm_num : (1 / 645 : ℝ) > 0)]
  rw [List.foldl_cons, maxStep_eval _ _ _ _ compClone2,
    if_pos (by norm_num : (2 / 685 : ℝ) > 1 / 645)]
  rw [List.foldl_cons, maxStep_eval _ _ _ _ compClone3,
    if_pos (by norm_num : (2 / 615 : ℝ) > 2 / 685)]
  rw [List.foldl_cons, maxStep_eval _ _ _ _ compClone4,
    if_pos (by norm_num : (1 / 200 : ℝ) > 2 / 615)]
  rw [List.foldl_cons, maxStep_eval _ _ _ _ compClone5,
    if_neg (by norm_num : ¬((1 / 330 : ℝ) > 1 / 200))]
  rw [List.foldl_nil]

/-- C5 counterexample: on cexCloneText the maximum combined similarity is
exactly 1/200, so maxSimilarity x 100 = 0.5.  The code returns
round(100 - 0.5) = 100 while the claim's formula 100 - round(0.5) gives
99: the two disagree. -/
theorem clonability_formula_cex :
    originalityScore cexCloneText = 100 ∧
    originalityScoreSpec cexCloneText = 99 ∧
    originalityScore cexCloneText ≠ originalityScoreSpec cexCloneText := by
  have h100 : originalityScore cexCloneText = 100 := by
    unfold originalityScore
    rw [maxSim_cexClone]
    exact jsRoundR_eq_of (by norm_num) (by norm_num)
  have h99 : originalityScoreSpec cexCloneText = 99 := by
    unfold originalityScoreSpec
    rw [maxSim_cexClone]
    rw [show jsRoundR ((1 / 200 : ℝ) * 100) = 1 from jsRoundR_eq_of (by norm_num) (by norm_num)]
    norm_num
  exact ⟨h100, h99, by rw [h100, h99]; decide⟩

/-- C5 as amended: the code's originality_score round(100 - maxSim x 100)
equals the claim's 100 - round(maxSim x 100) whenever maxSim x 100 is
not exactly midway between integers (at an exact half the code's value
is one more than the claim's formula). -/
theorem clonability_round_formula (text : Str)
    (h : Int.fract (maxSimilarity text * 100) ≠ 1 / 2) :
    originalityScore text = originalityScoreSpec text := by
  unfold originalityScore originalityScoreSpec jsRoundR
  set y := maxSimilarity text * 100 with hy
  have hfl : (⌊y⌋ : ℝ) ≤ y := Int.floor_le y
  have hfu : y < ⌊y⌋ + 1 := Int.lt_floor_add_one y
  have hfr : Int.fract y = y - ⌊y⌋ := (Int.self_sub_floor y).symm
  rcases lt_or_gt_of_ne h with hlt | hgt
  · have hylt : y - ⌊y⌋ < 1 / 2 := by rw [← hfr]; exact hlt
    have h1 : ⌊y + 1 / 2⌋ = ⌊y⌋ := by
      refine Int.floor_eq_iff.2 ⟨by linarith, ?_⟩
      linarith
    have h2 : ⌊100 - y + 1 / 2⌋ = 100 - ⌊y⌋ := by
      refine Int.floor_eq_iff.2 ⟨?_, ?_⟩ <;> push_cast <;> linarith
    rw [h1, h2]
  · have hygt : y - ⌊y⌋ > 1 / 2 := by rw [← hfr]; exact hgt
    have h1 : ⌊y + 1 / 2⌋ = ⌊y⌋ + 1 := by
      refine Int.floor_eq_iff.2 ⟨?_, ?_⟩ <;> push_cast <;> linarith
    have h2 : ⌊100 - y + 1 / 2⌋ = 99 - ⌊y⌋ := by
      refine Int.floor_eq_iff.2 ⟨?_, ?_⟩ <;> push_cast <;> linarith
    rw [h1, h2]
    omega

/-- A document with no trigram overlap contributes similarity 0 when the
input's filtered word list is empty. -/
theorem comp_zero_of (d : Str) (u : ℕ)
    (hi : (setInter (windows3 (lowerStr cexZeroText)) (windows3 (lowerStr d))).length = 0)
    (hu : (setUnion (windows3 (lowerStr cexZeroText)) (windows3 (lowerStr d))).length = u)
    (hupos : 0 < u) : comprehensiveSimilarity cexZeroText d = 0 := by
  rw [comp_left_empty _ d wordsOver2_cexZero ((0 : ℚ) / u) (ngram_eval _ _ 0 u hi hu hupos)]
  push_cast
  norm_num

theorem maxSim_cexZero : maxSimilarity cexZeroText = 0 := by
  have hc1 : comprehensiveSimilarity cexZeroText mockDoc1 = 0 :=
    comp_zero_of mockDoc1 107 (by decide) (by decide) (by norm_num)
  have hc2 : comprehensiveSimilarity cexZeroText mockDoc2 = 0 :=
    comp_zero_of mockDoc2 116 (by decide) (by decide) (by norm_num)
  have hc3 : comprehensiveSimilarity cexZeroText mockDoc3 = 0 :=
    comp_zero_of mockDoc3 102 (by decide) (by decide) (by norm_num)
  have hc4 : comprehensiveSimilarity cexZeroText mockDoc4 = 0 :=
    comp_zero_of mockDoc4 100 (by decide) (by decide) (by norm_num)
  have hc5 : comprehensiveSimilarity cexZeroText mockDoc5 = 0 :=
    comp_zero_of mockDoc5 111 (by decide) (by decide) (by norm_num)
  unfold maxSimilarity mockDocuments
  rw [List.foldl_cons, maxStep_eval _ _ _ _ hc1, if_neg (by norm_num)]
  rw [List.foldl_cons, maxStep_eval _ _ _ _ hc2, if_neg (by norm_num)]
  rw [List.foldl_cons, maxStep_eval _ _ _ _ hc3, if_neg (by norm_num)]
  rw [List.foldl_cons, maxStep_eval _ _ _ _ hc4, if_neg (by norm_num)]
  rw [List.foldl_cons, maxStep_eval _ _ _ _ hc5, if_neg (by norm_num)]
  rw [List.foldl_nil]

theorem clonability_round_formula_witness :
    originalityScore cexZeroText = originalityScoreSpec cexZeroText :=
  clonability_round_formula cexZeroText (by rw [maxSim_cexZero]; norm_num)


end Clona

namespace FastProc

/-- With a positive chunk size the chunk loop started at any index
gathers exactly the pages from that index on, in order. -/
theorem gatherChunks_drop (pages : List Str) (c : ℕ) (hc : 0 < c) :
    ∀ start, gatherChunks pages c start = pages.drop start := by
  have key : ∀ n start, pages.length - start ≤ n →
      gatherChunks pages c start = pages.drop start := by
    intro n
    induction n with
    | zero =>
      intro start h
      rw [gatherChunks]
      rw [dif_neg (by omega)]
      exact (List.drop_eq_nil_of_le (by omega)).symm
    | succ n ih =>
      intro start h
      rw [gatherChunks]
      by_cases hs : start < pages.length
      · rw [dif_pos ⟨hs, hc⟩, ih (start + c) (by omega)]
        unfold slicePages
        have hdd : pages.drop (start + c) = (pages.drop start).drop c := by
          rw [List.drop_drop, Nat.add_comm]
        rw [hdd]
        by_cases hend : start + c ≤ pages.length
        · rw [min_eq_left hend]
          have : start + c - start = c := by omega
          rw [this, List.take_append_drop]
        · rw [min_eq_right (by omega)]
          have h1 : (pages.drop start).take (pages.length - start) = pages.drop start := by
            apply List.take_of_length_le
            simp [List.length_drop]
          have h2 : (pages.drop start).drop c = [] := by
            apply List.drop_eq_nil_of_le
            simp [List.length_drop]
            omega
          rw [h1, h2, List.append_nil]
      · rw [dif_neg (by tauto)]
        exact (List.drop_eq_nil_of_le (by omega)).symm
  exact fun start => key (pages.length - start) start le_rfl

/-- C7: for every pdf (its pages abstracted as the list of per-page
extraction results) and every positive chunk size, chunked concurrent
extraction assembles the same text as sequential extraction with chunk
size 1, namely the pages joined in page order. -/
theorem chunked_extraction_eq_sequential (pages : List Str) (c : ℕ) (hc : 0 < c) :
    extractFullText pages c = extractFullText pages 1 ∧
    extractFullText pages c = joinNl pages := by
  unfold extractFullText
  rw [gatherChunks_drop pages c hc 0, gatherChunks_drop pages 1 (by norm_num) 0]
  exact ⟨rfl, by rw [List.drop_zero]⟩

theorem chunked_extraction_eq_sequential_witness :
    extractFullText [str "page one", str "page two", str "page three",
        str "page four", str "page five"] 4 =
      extractFullText [str "page one", str "page two", str "page three",
        str "page four", str "page five"] 1 ∧
    extractFullText [str "page one", str "page two", str "page three",
        str "page four", str "page five"] 4 =
      joinNl [str "page one", str "page two", str "page three",
        str "page four", str "page five"] :=
  chunked_extraction_eq_sequential _ 4 (by norm_num)

/-- A fast-processor environment used as the concrete witness input. -/
def cexFastEnv : FastEnv :=
  { fileName := str "scan.pdf", pdfLoad := .ok [[], []], docxResult := .ok [],
    readerOk := true, readerText := [], fileText := .ok [] }

theorem processPdfFallback_ocr (env : FastEnv) :
    ∀ res, processPdfFallback env = .ok res → res.ocrApplied = false := by
  intro res h
  unfold processPdfFallback at h
  cases henv : env.fileText with
  | ok t =>
    rw [henv] at h
    dsimp only at h
    by_cases hl : t.length > 100
    · rw [if_pos hl] at h
      cases h
      rfl
    · rw [if_neg hl] at h
      cases h
  | error m =>
    rw [henv] at h
    cases h

theorem processPdf_ocr (env : FastEnv) (opts : FastOptions) :
    ∀ res, processPdf env opts = .ok res → res.ocrApplied = false := by
  intro res h
  unfold processPdf at h
  cases henv : env.pdfLoad with
  | ok pages =>
    rw [henv] at h
    cases h
    rfl
  | error m =>
    rw [henv] at h
    dsimp only at h
    by_cases hf : opts.enableFallback = true
    · rw [if_pos hf] at h
      exact processPdfFallback_ocr env res h
    · rw [if_neg hf] at h
      cases h

theorem processDocx_ocr (env : FastEnv) :
    ∀ res, processDocx env = .ok res → res.ocrApplied = false := by
  intro res h
  unfold processDocx at h
  cases henv : env.docxResult with
  | ok v =>
    rw [henv] at h
    cases h
    rfl
  | error m =>
    rw [henv] at h
    cases h

/-- C10: the fast (client-side) processor never applies OCR: for every
input file, every environment of external-call outcomes and every
options configuration (with a positive chunk size, without which the
page loop would not terminate), the returned result has
ocrApplied = false — including when it sets isScanned = true. -/
theorem fast_processor_never_ocr (env : FastEnv) (opts : FastOptions)
    (_hc : 0 < opts.maxConcurrentPages) :
    (processDocument env opts).ocrApplied = false := by
  unfold processDocument
  dsimp only
  split_ifs with h1 h2 h3 h4
  · cases hr : processPdf env opts with
    | ok res => simp only [hr]; exact processPdf_ocr env opts res hr
    | error m => simp only [hr]
  · cases hr : processDocx env with
    | ok res => simp only [hr]; exact processDocx_ocr env res hr
    | error m => simp only [hr]
  · unfold processText
    by_cases hro : env.readerOk = true <;> simp [hro]
  · unfold processLegacyDoc
    by_cases hro : env.readerOk = true <;> simp [hro]
  · unfold processGeneric
    by_cases hro : env.readerOk = true <;> simp [hro]

theorem fast_processor_never_ocr_witness :
    (processDocument cexFastEnv defaultOptions).ocrApplied = false :=
  fast_processor_never_ocr cexFastEnv defaultOptions (by decide)

end FastProc


namespace DocProc

/-- Concrete environment for the first variant's unsupported-format run
(the other fields are never reached on that path). -/
def cexDocEnv1 : DocEnv1 :=
  { pdfParse := .error [], ocrText := [], docxResult := .ok [], pandoc := none,
    rawRead := .ok [] }

/-- C4 counterexample: the first processDocument variant does not return
a placeholder for an unsupported extension — it throws, and its outer
catch rethrows with a "Failed to process document:" prefix, so the
caller receives an error, not a result. -/
theorem unsupported_format_throws_cex :
    processDocument1 (str ".xyz") cexDocEnv1 =
      .error (str "Failed to process document: Unsupported file format: .xyz") := rfl

/-- C4 as amended: the second processDocument variant does return a
descriptive placeholder for every unsupported extension, without
raising (the function is total and its outer catch only guards the
stat call). -/
theorem unsupported_format_placeholder (ext : Str) (env : DocEnv2)
    (hstat : env.statOk = true)
    (hpdf : ext ≠ str ".pdf") (hdocx : ext ≠ str ".docx")
    (hdoc : ext ≠ str ".doc") (htxt : ext ≠ str ".txt") :
    processDocument2 ext env =
      { text := str "Unsupported file format: " ++ ext, isScanned := false,
        ocrApplied := false, pageCount := 0, fileType := removeFirst '.' ext,
        fileSize := env.fileSize } := by
  unfold processDocument2
  simp [hstat, hpdf, hdocx, hdoc, htxt]

/-- Concrete environment for the second variant's unsupported-format run. -/
def cexDocEnv2 : DocEnv2 :=
  { statOk := true, fileSize := 7, pdfPages := none, docxResult := .ok [],
    rawRead := .ok [] }

theorem unsupported_format_placeholder_witness :
    processDocument2 (str ".xyz") cexDocEnv2 =
      { text := str "Unsupported file format: " ++ str ".xyz", isScanned := false,
        ocrApplied := false, pageCount := 0, fileType := removeFirst '.' (str ".xyz"),
        fileSize := cexDocEnv2.fileSize } :=
  unsupported_format_placeholder (str ".xyz") cexDocEnv2 rfl (by decide) (by decide)
    (by decide) (by decide)

/-- C6 as amended: in the pdf-parse variant, whose scan heuristic is
text.length / pageCount < 100, every pdf whose extracted character count
is under 100 per page — in particular the 10-page pdf with fewer than
1000 extracted characters — yields isScanned = true in the extraction
result (the OCR escalation keeps the flag). -/
theorem pdf_per_page_scan_detect (text : Str) (numpages : ℕ) (env : DocEnv1)
    (henv : env.pdfParse = .ok (text, numpages))
    (hpos : 0 < numpages) (hlen : text.length < 100 * numpages) :
    ∃ r, processDocument1 (str ".pdf") env = .ok r ∧ r.isScanned = true := by
  have hscan : (processPdf1 env).isScanned = true := by
    unfold processPdf1
    rw [henv]
    dsimp only
    rw [decide_eq_true_iff]
    rw [div_lt_iff₀ (by exact_mod_cast hpos)]
    exact_mod_cast hlen
  unfold processDocument1
  rw [if_pos rfl]
  dsimp only
  rw [hscan]
  rw [if_pos rfl]
  by_cases hocr : env.ocrText ≠ [] ∧ env.ocrText.length > (processPdf1 env).text.length
  · rw [if_pos hocr]
    exact ⟨_, rfl, rfl⟩
  · rw [if_neg hocr]
    exact ⟨_, rfl, rfl⟩

/-- The 10-page scenario: page 1 holds 500 characters, pages 2-10 are
blank. -/
def cexPage1 : Str := List.replicate 500 'a'

def cexPdfPages : List Str := cexPage1 :: List.replicate 9 []

def cexScanEnv1 : DocEnv1 :=
  { pdfParse := .ok (joinNl cexPdfPages, 10), ocrText := [], docxResult := .ok [],
    pandoc := none, rawRead := .ok [] }

theorem pdf_per_page_scan_detect_witness :
    ∃ r, processDocument1 (str ".pdf") cexScanEnv1 = .ok r ∧ r.isScanned = true :=
  pdf_per_page_scan_detect (joinNl cexPdfPages) 10 cexScanEnv1 rfl (by norm_num)
    (by decide)

/-- Environment for the same pdf under the second variant. -/
def cexScanEnv2 : DocEnv2 :=
  { statOk := true, fileSize := 500, pdfPages := some cexPdfPages,
    docxResult := .ok [], rawRead := .ok [] }

/-- C6 counterexample: the same 10-page pdf — only page 1 has text, 509
extracted characters in total, under 100 x pageCount = 1000 — is NOT
flagged as scanned by the simplified heuristics: the second
processDocument variant (trimmed total < 100) reports isScanned = false,
and FastDocumentProcessor.isLikelyScanned is false on the fast
processor's assembled text. -/
theorem pdf_simplified_scan_cex :
    cexPdfPages.length = 10 ∧
    (∀ p ∈ cexPdfPages.tail, p = ([] : Str)) ∧
    (assemblePdfText cexPdfPages).length < 100 * 10 ∧
    (processDocument2 (str ".pdf") cexScanEnv2).isScanned = false ∧
    FastProc.isLikelyScanned (FastProc.extractFullText cexPdfPages 4) = false := by
  refine ⟨by decide, by decide, by decide, by decide, ?_⟩
  unfold FastProc.extractFullText
  rw [FastProc.gatherChunks_drop cexPdfPages 4 (by norm_num) 0]
  decide

end DocProc

namespace Ocr

/-- C8 counterexample: a one-page run whose recognize call throws.  The
catch returns '' with the temporary raster directory still on disk and
the created worker never terminated. -/
theorem ocr_cleanup_cex :
    applyOcrToPdf { pageCount := 1, failAt := some (.recognize 1) } (fun _ => str "t") =
      { result := [], tempDirCreated := true, tempDirRemoved := false,
        workerCreated := true, workerTerminated := false } := rfl

/-- C8 as amended: applyOcrToPdf removes its temporary directory and
terminates its worker only on the all-steps-succeed path.  Whenever any
step throws, the catch returns '' and the temporary directory is never
removed; the worker has been terminated only when the failing step was
the final directory removal itself. -/
theorem ocr_cleanup_on_success_only (env : OcrEnv) (recText : ℕ → Str) :
    (env.failAt = none → applyOcrToPdf env recText = successOutcome env recText) ∧
    (applyOcrToPdf env recText = successOutcome env recText ∨
      ((applyOcrToPdf env recText).result = [] ∧
        (applyOcrToPdf env recText).tempDirRemoved = false ∧
        ((applyOcrToPdf env recText).workerTerminated = true →
          env.failAt = some .removeDir))) := by
  constructor
  · intro h
    unfold applyOcrToPdf fails
    rw [h]
    simp
  · unfold applyOcrToPdf
    split_ifs with h1 h2 h3 h4 h5 h6
    · exact Or.inr ⟨rfl, rfl, by intro hfalse; cases hfalse⟩
    · exact Or.inr ⟨rfl, rfl, by intro hfalse; cases hfalse⟩
    · exact Or.inr ⟨rfl, rfl, by intro hfalse; cases hfalse⟩
    · exact Or.inr ⟨rfl, rfl, by intro hfalse; cases hfalse⟩
    · exact Or.inr ⟨rfl, rfl, by intro hfalse; cases hfalse⟩
    · refine Or.inr ⟨rfl, rfl, fun _ => ?_⟩
      unfold fails at h6
      exact of_decide_eq_true h6
    · exact Or.inl rfl

end Ocr



namespace Clona

/-- A ratio of natural counts with numerator at most the denominator lies
in [0, 1] (with the convention 0/0 = 0 shared by all the analyzers'
guarded divisions). -/
theorem ratio_mem (x y : ℕ) (hxy : x ≤ y) :
    0 ≤ ((x : ℚ) / (y : ℚ)) ∧ ((x : ℚ) / (y : ℚ)) ≤ 1 := by
  rcases Nat.eq_zero_or_pos y with hy | hy
  · subst hy
    have hx : x = 0 := Nat.le_zero.mp hxy
    subst hx
    norm_num
  · constructor
    · positivity
    · rw [div_le_one (by exact_mod_cast hy)]
      exact_mod_cast hxy

/-- The JS set intersection of two lists is never larger than their set
union. -/
theorem setInter_length_le {α : Type} [DecidableEq α] (a b : List α) :
    (setInter a b).length ≤ (setUnion a b).length := by
  unfold setInter setUnion
  calc (a.dedup.filter fun x => decide (x ∈ b.dedup)).length
      ≤ a.dedup.length := List.length_filter_le _ _
    _ = a.toFinset.card := by rw [List.card_toFinset]
    _ ≤ ((a.dedup ++ b.dedup).dedup).length := by
        rw [← List.card_toFinset]
        apply Finset.card_le_card
        intro x hx
        simp only [List.mem_toFinset, List.mem_append, List.mem_dedup] at hx ⊢
        exact Or.inl hx

theorem jaccard_mem (a b : Str) :
    0 ≤ jaccardSimilarity a b ∧ jaccardSimilarity a b ≤ 1 := by
  unfold jaccardSimilarity
  dsimp only
  split_ifs with h
  · exact ratio_mem _ _ (setInter_length_le _ _)
  · norm_num

theorem ngram_mem (a b : Str) :
    0 ≤ ngramSimilarity a b ∧ ngramSimilarity a b ≤ 1 := by
  unfold ngramSimilarity
  dsimp only
  split_ifs with h
  · exact ratio_mem _ _ (setInter_length_le _ _)
  · norm_num

/-- The LCS length is bounded by the length of the first word list. -/
theorem lcsLen_le_left (a b : List Str) : lcsLen a b ≤ a.length := by
  have key : ∀ (n : ℕ) (a b : List Str), a.length + b.length ≤ n →
      lcsLen a b ≤ a.length := by
    intro n
    induction n with
    | zero =>
      intro a b h
      match a, b with
      | [], _ => simp [lcsLen]
      | _ :: _, [] => simp [lcsLen]
      | _ :: _, _ :: _ => simp only [List.length_cons] at h; omega
    | succ n ih =>
      intro a b h
      match a, b with
      | [], _ => simp [lcsLen]
      | _ :: _, [] => simp [lcsLen]
      | x :: xs, y :: ys =>
        simp only [lcsLen, List.length_cons]
        by_cases hxy : x = y
        · rw [if_pos hxy]
          have hxy2 := ih xs ys (by simp only [List.length_cons] at h; omega)
          omega
        · rw [if_neg hxy]
          have h1 := ih xs (y :: ys) (by simp only [List.length_cons] at h ⊢; omega)
          have h2 := ih (x :: xs) ys (by simp only [List.length_cons] at h ⊢; omega)
          simp only [List.length_cons] at h2
          exact max_le (by omega) (by omega)
  exact key (a.length + b.length) a b le_rfl

theorem lcs_mem (a b : Str) :
    0 ≤ lcsSimilarity a b ∧ lcsSimilarity a b ≤ 1 := by
  unfold lcsSimilarity
  dsimp only
  split_ifs with h
  · exact ratio_mem _ _ (le_trans (lcsLen_le_left _ _) (le_max_left _ _))
  · norm_num

/-- The cosine similarity lies in [0, 1]: the dot product of the two
nonnegative term-frequency vectors is nonnegative, and by the
Cauchy-Schwarz inequality it is at most the product of the norms. -/
theorem cosine_mem (a b : Str) :
    0 ≤ cosineSimilarity a b ∧ cosineSimilarity a b ≤ 1 := by
  unfold cosineSimilarity
  dsimp only
  split_ifs with hd
  · constructor
    · refine div_nonneg ?_ (le_of_lt hd)
      exact Finset.sum_nonneg fun w _ =>
        mul_nonneg (Nat.cast_nonneg _) (Nat.cast_nonneg _)
    · rw [div_le_one hd]
      have hcs := Real.sum_mul_le_sqrt_mul_sqrt
        ((wordsOver2 a ++ wordsOver2 b).toFinset)
        (fun w => ((wordsOver2 a).count w : ℝ))
        (fun w => ((wordsOver2 b).count w : ℝ))
      simp only [pow_two] at hcs
      exact hcs
  · norm_num

theorem comp_mem (a b : Str) :
    0 ≤ comprehensiveSimilarity a b ∧ comprehensiveSimilarity a b ≤ 1 := by
  obtain ⟨hj0, hj1⟩ := jaccard_mem a b
  obtain ⟨hc0, hc1⟩ := cosine_mem a b
  obtain ⟨hl0, hl1⟩ := lcs_mem a b
  obtain ⟨hn0, hn1⟩ := ngram_mem a b
  have hj0R : (0 : ℝ) ≤ (jaccardSimilarity a b : ℚ) := by exact_mod_cast hj0
  have hj1R : ((jaccardSimilarity a b : ℚ) : ℝ) ≤ 1 := by exact_mod_cast hj1
  have hl0R : (0 : ℝ) ≤ (lcsSimilarity a b : ℚ) := by exact_mod_cast hl0
  have hl1R : ((lcsSimilarity a b : ℚ) : ℝ) ≤ 1 := by exact_mod_cast hl1
  have hn0R : (0 : ℝ) ≤ (ngramSimilarity a b : ℚ) := by exact_mod_cast hn0
  have hn1R : ((ngramSimilarity a b : ℚ) : ℝ) ≤ 1 := by exact_mod_cast hn1
  unfold comprehensiveSimilarity
  constructor
  · nlinarith
  · nlinarith

/-- Folding the similarity-maximum step over any document list keeps the
running maximum in [0, 1]. -/
theorem foldl_maxStep_mem (text : Str) (l : List Str) :
    ∀ (m : ℝ), 0 ≤ m → m ≤ 1 →
      0 ≤ l.foldl (maxStep text) m ∧ l.foldl (maxStep text) m ≤ 1 := by
  induction l with
  | nil => exact fun m h0 h1 => ⟨h0, h1⟩
  | cons d t ih =>
    intro m h0 h1
    rw [List.foldl_cons]
    apply ih
    · unfold maxStep
      dsimp only
      split_ifs with hgt
      · exact (comp_mem text d).1
      · exact h0
    · unfold maxStep
      dsimp only
      split_ifs with hgt
      · exact (comp_mem text d).2
      · exact h1

theorem maxSim_mem (text : Str) :
    0 ≤ maxSimilarity text ∧ maxSimilarity text ≤ 1 :=
  foldl_maxStep_mem text mockDocuments 0 le_rfl zero_le_one

/-- The clonability pass's originality_score is an integer in [0, 100]. -/
theorem clonability_bounds (text : Str) :
    0 ≤ originalityScore text ∧ originalityScore text ≤ 100 := by
  obtain ⟨h0, h1⟩ := maxSim_mem text
  unfold originalityScore
  constructor
  · exact jsRoundR_nonneg (by linarith)
  · refine jsRoundR_le ?_
    push_cast
    linarith

end Clona



namespace Integrity

/-!
The integrity route (src/app/api/integrity/route.ts): a fixed list of
ten mock clinical guideline keywords, and nlpIntegrityScore counting how
many occur in the lowercased input.
-/

/-- The guidelineKeywords array of the integrity route. -/
def guidelineKeywords : List Str :=
  [str "assessment", str "diagnosis", str "intervention", str "outcome",
   str "follow-up", str "medication", str "vital signs",
   str "patient education", str "care plan", str "documentation"]

/-- nlpIntegrityScore's score field (the route's integrity_score):
Math.round((found.length / guidelineKeywords.length) * 100) where found
keeps the keywords contained in the lowercased text. -/
def nlpIntegrityScore (text : Str) : ℤ :=
  let textLower := lowerStr text
  let found := guidelineKeywords.filter fun keyword => strIncludes textLower keyword
  jsRound (((found.length : ℚ) / (guidelineKeywords.length : ℚ)) * 100)

/-- The integrity pass's score is an integer in [0, 100]. -/
theorem integrity_bounds (text : Str) :
    0 ≤ nlpIntegrityScore text ∧ nlpIntegrityScore text ≤ 100 := by
  unfold nlpIntegrityScore
  dsimp only
  obtain ⟨h0, h1⟩ := Clona.ratio_mem
    ((guidelineKeywords.filter fun keyword => strIncludes (lowerStr text) keyword).length)
    guidelineKeywords.length (List.length_filter_le _ _)
  constructor
  · exact jsRound_nonneg (by nlinarith)
  · refine jsRound_le ?_
    push_cast
    nlinarith

end Integrity

namespace Audit

/-!
The ClinicalAuditAnalyzer of src/app/api/documents/process/route.ts:
five weighted categories of audit criteria; a criterion is scored from
the fraction of its keywords (weight 60) and required elements (weight
40) found in the lowercased text, scaled by its maxScore; the overall
audit_score is the rounded percentage of the weighted total against the
weighted maximum.  The source's per-criterion field score: 0 is never
read before being recomputed and is omitted.
-/

structure AuditCriterion where
  name : Str
  keywords : List Str
  required : List Str
  maxScore : ℕ
deriving DecidableEq

structure AuditCategory where
  name : Str
  weight : ℚ
  criteria : List AuditCriterion
deriving DecidableEq

def critDocumentationCompletenessPatientIdentification : AuditCriterion :=
  { name := str "Patient Identification",
    keywords := [str "patient name", str "patient id", str "medical record number", str "mrn", str "date of birth", str "dob", str "age", str "gender", str "demographics", str "contact information", str "emergency contact", str "insurance", str "primary care provider"],
    required := [str "patient identification"],
    maxScore := 10 }

def critDocumentationCompletenessDateTimeDocumentation : AuditCriterion :=
  { name := str "Date/Time Documentation",
    keywords := [str "date", str "time", str "timestamp", str "encounter date", str "visit date", str "admission date", str "discharge date", str "assessment date", str "evaluation date", str "follow-up date", str "appointment date"],
    required := [str "date and time"],
    maxScore := 10 }

def critDocumentationCompletenessProviderIdentification : AuditCriterion :=
  { name := str "Provider Identification",
    keywords := [str "physician", str "nurse", str "provider", str "clinician", str "attending", str "resident", str "practitioner", str "doctor", str "nurse practitioner", str "physician assistant", str "pa", str "np", str "rn", str "lpn", str "cna"],
    required := [str "provider identification"],
    maxScore := 10 }

def critDocumentationCompletenessChiefComplaint : AuditCriterion :=
  { name := str "Chief Complaint",
    keywords := [str "chief complaint", str "cc", str "presenting problem", str "reason for visit", str "primary concern", str "main complaint", str "patient reports", str "patient states", str "patient complains", str "patient describes"],
    required := [str "chief complaint"],
    maxScore := 15 }

def critDocumentationCompletenessHistoryOfPresentIllness : AuditCriterion :=
  { name := str "History of Present Illness",
    keywords := [str "history of present illness", str "hpi", str "present illness", str "current illness", str "illness history", str "symptom progression", str "symptom timeline", str "symptom evolution", str "associated symptoms"],
    required := [str "history of present illness"],
    maxScore := 15 }

def critDocumentationCompletenessPhysicalExamination : AuditCriterion :=
  { name := str "Physical Examination",
    keywords := [str "physical examination", str "physical exam", str "pe", str "examination findings", str "clinical findings", str "vital signs", str "blood pressure", str "temperature", str "heart rate", str "respiratory rate"],
    required := [str "physical examination"],
    maxScore := 15 }

def critDocumentationCompletenessAssessment : AuditCriterion :=
  { name := str "Assessment/Diagnosis",
    keywords := [str "assessment", str "impression", str "diagnosis", str "diagnostic impression", str "clinical impression", str "working diagnosis", str "differential diagnosis", str "problem list"],
    required := [str "assessment"],
    maxScore := 15 }

def critDocumentationCompletenessPlan : AuditCriterion :=
  { name := str "Treatment Plan",
    keywords := [str "plan", str "treatment plan", str "care plan", str "management plan", str "intervention plan", str "recommendations", str "next steps", str "follow-up plan", str "discharge plan"],
    required := [str "treatment plan"],
    maxScore := 15 }

def catDocumentationCompleteness : AuditCategory :=
  { name := str "Documentation Completeness", weight := (25 : ℚ) / 100,
    criteria := [critDocumentationCompletenessPatientIdentification, critDocumentationCompletenessDateTimeDocumentation, critDocumentationCompletenessProviderIdentification, critDocumentationCompletenessChiefComplaint, critDocumentationCompletenessHistoryOfPresentIllness, critDocumentationCompletenessPhysicalExamination, critDocumentationCompletenessAssessment, critDocumentationCompletenessPlan] }

def critClinicalAccuracyMedicalTerminology : AuditCriterion :=
  { name := str "Medical Terminology",
    keywords := [str "diagnosis", str "symptoms", str "treatment", str "medication", str "procedure", str "assessment", str "evaluation", str "clinical", str "medical", str "therapeutic", str "pharmacological", str "intervention"],
    required := [str "medical terminology"],
    maxScore := 20 }

def critClinicalAccuracyClinicalReasoning : AuditCriterion :=
  { name := str "Clinical Reasoning",
    keywords := [str "clinical reasoning", str "diagnostic reasoning", str "assessment", str "evaluation", str "impression", str "differential diagnosis", str "ruling out", str "ruling in", str "clinical correlation"],
    required := [str "clinical reasoning"],
    maxScore := 20 }

def critClinicalAccuracyEvidenceBasedPractice : AuditCriterion :=
  { name := str "Evidence-Based Practice",
    keywords := [str "evidence-based", str "clinical guidelines", str "best practice", str "protocol", str "standard of care", str "recommendations", str "evidence-based medicine", str "clinical evidence"],
    required := [str "evidence-based practice"],
    maxScore := 20 }

def critClinicalAccuracyPatientCenteredCare : AuditCriterion :=
  { name := str "Patient-Centered Care",
    keywords := [str "patient-centered", str "patient preferences", str "shared decision making", str "patient goals", str "patient values", str "patient satisfaction", str "patient experience"],
    required := [str "patient-centered care"],
    maxScore := 20 }

def critClinicalAccuracySafetyConsiderations : AuditCriterion :=
  { name := str "Safety Considerations",
    keywords := [str "safety", str "risk assessment", str "allergies", str "medications", str "vital signs", str "patient safety", str "safety measures", str "safety protocols", str "fall risk", str "infection control"],
    required := [str "safety considerations"],
    maxScore := 20 }

def catClinicalAccuracy : AuditCategory :=
  { name := str "Clinical Accuracy", weight := (25 : ℚ) / 100,
    criteria := [critClinicalAccuracyMedicalTerminology, critClinicalAccuracyClinicalReasoning, critClinicalAccuracyEvidenceBasedPractice, critClinicalAccuracyPatientCenteredCare, critClinicalAccuracySafetyConsiderations] }

def critDocumentationQualityClarity : AuditCriterion :=
  { name := str "Clarity and Readability",
    keywords := [str "clear", str "concise", str "readable", str "understandable", str "well-organized", str "structured", str "logical flow", str "coherent", str "comprehensive", str "detailed"],
    required := [str "clarity"],
    maxScore := 25 }

def critDocumentationQualityCompleteness : AuditCriterion :=
  { name := str "Completeness",
    keywords := [str "complete", str "comprehensive", str "thorough", str "detailed", str "full", str "extensive", str "all inclusive", str "comprehensive assessment", str "complete evaluation"],
    required := [str "completeness"],
    maxScore := 25 }

def critDocumentationQualityConsistency : AuditCriterion :=
  { name := str "Consistency",
    keywords := [str "consistent", str "uniform", str "standardized", str "systematic", str "regular", str "reliable", str "consistent format", str "standard format", str "uniform documentation"],
    required := [str "consistency"],
    maxScore := 25 }

def critDocumentationQualityTimeliness : AuditCriterion :=
  { name := str "Timeliness",
    keywords := [str "timely", str "prompt", str "immediate", str "current", str "up-to-date", str "real-time", str "timely documentation", str "prompt recording", str "immediate documentation"],
    required := [str "timeliness"],
    maxScore := 25 }

def catDocumentationQuality : AuditCategory :=
  { name := str "Documentation Quality", weight := (20 : ℚ) / 100,
    criteria := [critDocumentationQualityClarity, critDocumentationQualityCompleteness, critDocumentationQualityConsistency, critDocumentationQualityTimeliness] }

def critComplianceStandardsRegulatoryCompliance : AuditCriterion :=
  { name := str "Regulatory Compliance",
    keywords := [str "regulatory", str "compliance", str "standards", str "guidelines", str "requirements", str "policies", str "procedures", str "protocols", str "accreditation", str "joint commission"],
    required := [str "regulatory compliance"],
    maxScore := 30 }

def critComplianceStandardsLegalRequirements : AuditCriterion :=
  { name := str "Legal Requirements",
    keywords := [str "legal", str "legal requirements", str "legal documentation", str "legal standards", str "legal compliance", str "legal obligations", str "legal responsibilities", str "legal framework"],
    required := [str "legal requirements"],
    maxScore := 30 }

def critComplianceStandardsPrivacySecurity : AuditCriterion :=
  { name := str "Privacy and Security",
    keywords := [str "privacy", str "security", str "confidentiality", str "hipaa", str "patient privacy", str "data security", str "information security", str "confidential", str "protected health information", str "phi"],
    required := [str "privacy and security"],
    maxScore := 40 }

def catComplianceStandards : AuditCategory :=
  { name := str "Compliance Standards", weight := (15 : ℚ) / 100,
    criteria := [critComplianceStandardsRegulatoryCompliance, critComplianceStandardsLegalRequirements, critComplianceStandardsPrivacySecurity] }

def critProfessionalStandardsProfessionalLanguage : AuditCriterion :=
  { name := str "Professional Language",
    keywords := [str "professional", str "professional language", str "professional terminology", str "professional communication", str "professional documentation", str "professional standards", str "professional practice"],
    required := [str "professional language"],
    maxScore := 25 }

def critProfessionalStandardsEthicalConsiderations : AuditCriterion :=
  { name := str "Ethical Considerations",
    keywords := [str "ethical", str "ethics", str "ethical considerations", str "ethical practice", str "ethical standards", str "ethical principles", str "ethical guidelines", str "ethical obligations"],
    required := [str "ethical considerations"],
    maxScore := 25 }

def critProfessionalStandardsInterdisciplinaryCollaboration : AuditCriterion :=
  { name := str "Interdisciplinary Collaboration",
    keywords := [str "interdisciplinary", str "collaboration", str "team approach", str "multidisciplinary", str "interprofessional", str "team-based care", str "care coordination", str "care management", str "case management"],
    required := [str "interdisciplinary collaboration"],
    maxScore := 25 }

def critProfessionalStandardsContinuingEducation : AuditCriterion :=
  { name := str "Continuing Education",
    keywords := [str "continuing education", str "professional development", str "training", str "education", str "learning", str "skill development", str "competency", str "knowledge", str "expertise"],
    required := [str "continuing education"],
    maxScore := 25 }

def catProfessionalStandards : AuditCategory :=
  { name := str "Professional Standards", weight := (15 : ℚ) / 100,
    criteria := [critProfessionalStandardsProfessionalLanguage, critProfessionalStandardsEthicalConsiderations, critProfessionalStandardsInterdisciplinaryCollaboration, critProfessionalStandardsContinuingEducation] }

def auditCriteria : List AuditCategory :=
  [catDocumentationCompleteness, catClinicalAccuracy, catDocumentationQuality, catComplianceStandards, catProfessionalStandards]

/-- calculateCriterionScore: keyword fraction times 60 plus required
fraction times 40, scaled by maxScore / 100 and rounded. -/
def calculateCriterionScore (textLower : Str) (c : AuditCriterion) : ℤ :=
  let foundKeywords := c.keywords.filter fun keyword => strIncludes textLower (lowerStr keyword)
  let foundRequired := c.required.filter fun req => strIncludes textLower (lowerStr req)
  let keywordScore : ℚ := ((foundKeywords.length : ℚ) / (c.keywords.length : ℚ)) * 60
  let requiredScore : ℚ := ((foundRequired.length : ℚ) / (c.required.length : ℚ)) * 40
  jsRound ((keywordScore + requiredScore) * (c.maxScore : ℚ) / 100)

/-- analyzeCategory's totalScore: the sum of the criterion scores. -/
def categoryScore (textLower : Str) (cat : AuditCategory) : ℤ :=
  (cat.criteria.map fun c => calculateCriterionScore textLower c).sum

/-- analyzeCategory's maxPossibleScore: the sum of the criteria's
maxScore fields. -/
def categoryMax (cat : AuditCategory) : ℕ :=
  (cat.criteria.map fun c => c.maxScore).sum

/-- analyze()'s totalScore accumulator: category scores times category
weights. -/
def auditTotal (textLower : Str) : ℚ :=
  (auditCriteria.map fun cat => (categoryScore textLower cat : ℚ) * cat.weight).sum

/-- analyze()'s maxPossibleScore accumulator. -/
def auditMaxPossible : ℚ :=
  (auditCriteria.map fun cat => (categoryMax cat : ℚ) * cat.weight).sum

/-- analyze()'s overallScore, returned as audit_score:
Math.round((totalScore / maxPossibleScore) * 100). -/
def auditScore (text : Str) : ℤ :=
  jsRound (auditTotal (lowerStr text) / auditMaxPossible * 100)

theorem criterionScore_nonneg (t : Str) (c : AuditCriterion) :
    0 ≤ calculateCriterionScore t c := by
  unfold calculateCriterionScore
  dsimp only
  exact jsRound_nonneg (by positivity)

theorem criterionScore_le (t : Str) (c : AuditCriterion) :
    calculateCriterionScore t c ≤ (c.maxScore : ℤ) := by
  unfold calculateCriterionScore
  dsimp only
  obtain ⟨hk0, hk1⟩ := Clona.ratio_mem
    ((c.keywords.filter fun keyword => strIncludes t (lowerStr keyword)).length)
    c.keywords.length (List.length_filter_le _ _)
  obtain ⟨hr0, hr1⟩ := Clona.ratio_mem
    ((c.required.filter fun req => strIncludes t (lowerStr req)).length)
    c.required.length (List.length_filter_le _ _)
  have hm : (0 : ℚ) ≤ (c.maxScore : ℚ) := Nat.cast_nonneg _
  refine jsRound_le ?_
  push_cast
  rw [div_le_iff₀ (by norm_num : (0 : ℚ) < 100)]
  nlinarith

theorem categoryScore_nonneg (t : Str) (cat : AuditCategory) :
    0 ≤ categoryScore t cat := by
  unfold categoryScore
  apply List.sum_nonneg
  intro x hx
  simp only [List.mem_map] at hx
  obtain ⟨c, _, rfl⟩ := hx
  exact criterionScore_nonneg t c

theorem categoryScore_le (t : Str) (cat : AuditCategory) :
    categoryScore t cat ≤ (categoryMax cat : ℤ) := by
  unfold categoryScore categoryMax
  rw [Nat.cast_list_sum, List.map_map]
  apply List.sum_le_sum
  intro c _
  exact criterionScore_le t c

theorem auditWeights_nonneg : ∀ cat ∈ auditCriteria, (0 : ℚ) ≤ cat.weight := by
  intro cat hcat
  fin_cases hcat <;>
    norm_num [catDocumentationCompleteness, catClinicalAccuracy,
      catDocumentationQuality, catComplianceStandards, catProfessionalStandards]

theorem auditTotal_nonneg (t : Str) : 0 ≤ auditTotal t := by
  unfold auditTotal
  apply List.sum_nonneg
  intro x hx
  simp only [List.mem_map] at hx
  obtain ⟨cat, hcat, rfl⟩ := hx
  have h1 : (0 : ℚ) ≤ (categoryScore t cat : ℚ) := by
    exact_mod_cast categoryScore_nonneg t cat
  exact mul_nonneg h1 (auditWeights_nonneg cat hcat)

theorem auditTotal_le (t : Str) : auditTotal t ≤ auditMaxPossible := by
  unfold auditTotal auditMaxPossible
  apply List.sum_le_sum
  intro cat hcat
  have h1 : (categoryScore t cat : ℚ) ≤ (categoryMax cat : ℚ) := by
    exact_mod_cast categoryScore_le t cat
  exact mul_le_mul_of_nonneg_right h1 (auditWeights_nonneg cat hcat)

/-- The analyzer's weighted maximum evaluates to 101.25 (the category
maxima are 105, 100, 100, 100, 100 with weights 0.25, 0.25, 0.20, 0.15,
0.15). -/
theorem auditMaxPossible_eq : auditMaxPossible = 405 / 4 := by
  have h1 : categoryMax catDocumentationCompleteness = 105 := by decide
  have h2 : categoryMax catClinicalAccuracy = 100 := by decide
  have h3 : categoryMax catDocumentationQuality = 100 := by decide
  have h4 : categoryMax catComplianceStandards = 100 := by decide
  have h5 : categoryMax catProfessionalStandards = 100 := by decide
  unfold auditMaxPossible auditCriteria
  simp only [List.map_cons, List.map_nil, List.sum_cons, List.sum_nil,
    h1, h2, h3, h4, h5]
  norm_num [catDocumentationCompleteness, catClinicalAccuracy,
    catDocumentationQuality, catComplianceStandards, catProfessionalStandards]

/-- The audit pass's score is an integer in [0, 100]. -/
theorem audit_bounds (text : Str) :
    0 ≤ auditScore text ∧ auditScore text ≤ 100 := by
  have h0 := auditTotal_nonneg (lowerStr text)
  have h1 := auditTotal_le (lowerStr text)
  rw [auditMaxPossible_eq] at h1
  unfold auditScore
  rw [auditMaxPossible_eq]
  constructor
  · exact jsRound_nonneg
      (mul_nonneg (div_nonneg h0 (by norm_num)) (by norm_num))
  · refine jsRound_le ?_
    push_cast
    rw [div_mul_eq_mul_div, div_le_iff₀ (by norm_num : (0 : ℚ) < 405 / 4)]
    linarith

end Audit



namespace Golden

/-!
The GoldenThreadAnalyzer of src/app/api/golden-thread/route.ts: eight
weighted clinical sections matched sentence-by-sentence, patient care
action and clinical intervention keyword totals, and nine
section-to-section connections whose strengths are summed when a
connection is present with strength above 0.5.  The per-category action
and intervention scores min(count*20, 100) / min(count*15, 100) feed
only the detailed report; analyze() reads the totals, which are what is
modelled here.
-/

structure SectionConfig where
  keywords : List Str
  required : List Str
  weight : ℚ
deriving DecidableEq

/-- The connection `type` strings of goldenThreadConnections. -/
inductive ConnType where
  | diagnostic
  | therapeutic
  | implementation
  | contextual
  | actionIntervention
deriving DecidableEq

structure Connection where
  fromSec : SectionConfig
  toSec : SectionConfig
  type : ConnType
  weight : ℚ
deriving DecidableEq

def secPatientIdentification : SectionConfig :=
  { keywords := [str "patient name", str "patient id", str "medical record number", str "mrn", str "date of birth", str "dob", str "age", str "gender", str "sex", str "demographics", str "contact information", str "emergency contact", str "insurance", str "primary care provider", str "pcp"],
    required := [str "patient identification"],
    weight := (10 : ℚ) / 100 }

def secChiefComplaint : SectionConfig :=
  { keywords := [str "chief complaint", str "cc", str "presenting problem", str "reason for visit", str "primary concern", str "main complaint", str "patient reports", str "patient states", str "patient complains", str "patient describes", str "patient indicates", str "symptom onset", str "duration of symptoms", str "severity of symptoms", str "aggravating factors", str "alleviating factors"],
    required := [str "chief complaint"],
    weight := (15 : ℚ) / 100 }

def secHistoryOfPresentIllness : SectionConfig :=
  { keywords := [str "history of present illness", str "hpi", str "present illness", str "current illness", str "illness history", str "symptom progression", str "symptom timeline", str "symptom evolution", str "associated symptoms", str "related symptoms", str "previous episodes", str "similar episodes", str "symptom pattern", str "symptom frequency", str "symptom intensity"],
    required := [str "history of present illness"],
    weight := (15 : ℚ) / 100 }

def secPastMedicalHistory : SectionConfig :=
  { keywords := [str "past medical history", str "pmh", str "medical history", str "previous medical history", str "chronic conditions", str "comorbidities", str "past illnesses", str "previous diagnoses", str "medical conditions", str "health history", str "surgical history", str "hospitalizations", str "allergies", str "medication history", str "family history"],
    required := [str "past medical history"],
    weight := (10 : ℚ) / 100 }

def secPhysicalExamination : SectionConfig :=
  { keywords := [str "physical examination", str "physical exam", str "pe", str "examination findings", str "clinical findings", str "objective findings", str "vital signs", str "blood pressure", str "temperature", str "heart rate", str "respiratory rate", str "oxygen saturation", str "general appearance", str "mental status", str "cardiovascular exam", str "respiratory exam", str "abdominal exam", str "neurological exam", str "musculoskeletal exam", str "skin exam", str "head and neck exam"],
    required := [str "physical examination"],
    weight := (15 : ℚ) / 100 }

def secAssessment : SectionConfig :=
  { keywords := [str "assessment", str "impression", str "diagnosis", str "diagnostic impression", str "clinical impression", str "working diagnosis", str "differential diagnosis", str "problem list", str "clinical assessment", str "medical assessment", str "nursing assessment", str "severity assessment", str "acuity level", str "risk assessment", str "clinical reasoning", str "diagnostic reasoning"],
    required := [str "assessment"],
    weight := (15 : ℚ) / 100 }

def secPlan : SectionConfig :=
  { keywords := [str "plan", str "treatment plan", str "care plan", str "management plan", str "intervention plan", str "therapeutic plan", str "recommendations", str "next steps", str "follow-up plan", str "discharge plan", str "transition plan", str "care coordination", str "patient education", str "lifestyle modifications", str "preventive measures", str "monitoring plan"],
    required := [str "plan"],
    weight := (15 : ℚ) / 100 }

def secInterventions : SectionConfig :=
  { keywords := [str "interventions", str "treatments", str "procedures", str "therapies", str "medications", str "prescriptions", str "drug therapy", str "pharmacological therapy", str "non-pharmacological therapy", str "surgical interventions", str "medical procedures", str "diagnostic procedures", str "therapeutic procedures", str "nursing interventions", str "clinical interventions"],
    required := [str "interventions"],
    weight := (15 : ℚ) / 100 }

def clinicalSections : List SectionConfig :=
  [secPatientIdentification, secChiefComplaint, secHistoryOfPresentIllness, secPastMedicalHistory, secPhysicalExamination, secAssessment, secPlan, secInterventions]

def patientCareActionsAssessment : List Str :=
  [str "assess", str "assessment", str "evaluate", str "evaluation", str "examine", str "examination", str "review", str "analyze", str "monitor", str "monitoring", str "observe", str "observation", str "measure", str "measurement", str "check", str "checking", str "screen", str "screening", str "test", str "testing", str "investigate", str "investigation", str "assess risk", str "risk assessment"]

def patientCareActionsCommunication : List Str :=
  [str "communicate", str "communication", str "discuss", str "discussion", str "explain", str "explanation", str "educate", str "education", str "inform", str "information", str "counsel", str "counseling", str "advise", str "advice", str "teach", str "teaching", str "instruct", str "instruction", str "notify", str "notification", str "report", str "reporting", str "document", str "documentation"]

def patientCareActionsCoordination : List Str :=
  [str "coordinate", str "coordination", str "arrange", str "arrangement", str "schedule", str "scheduling", str "refer", str "referral", str "consult", str "consultation", str "collaborate", str "collaboration", str "organize", str "organization", str "plan", str "planning", str "facilitate", str "facilitation", str "manage", str "management", str "oversee", str "oversight", str "supervise", str "supervision"]

def patientCareActionsIntervention : List Str :=
  [str "intervene", str "intervention", str "treat", str "treatment", str "administer", str "administration", str "perform", str "performance", str "conduct", str "conducting", str "implement", str "implementation", str "execute", str "execution", str "apply", str "application", str "deliver", str "delivery", str "provide", str "provision", str "offer", str "offering", str "initiate", str "initiation"]

def patientCareActionsMonitoring : List Str :=
  [str "monitor", str "monitoring", str "track", str "tracking", str "follow", str "following", str "observe", str "observation", str "watch", str "watching", str "surveil", str "surveillance", str "supervise", str "supervision", str "oversee", str "oversight", str "check", str "checking", str "verify", str "verification", str "confirm", str "confirmation", str "validate", str "validation"]

def patientCareActions : List (List Str) :=
  [patientCareActionsAssessment, patientCareActionsCommunication, patientCareActionsCoordination, patientCareActionsIntervention, patientCareActionsMonitoring]

def clinicalInterventionsPharmacological : List Str :=
  [str "medication", str "drug", str "prescription", str "pharmacotherapy", str "medication therapy", str "drug therapy", str "antibiotic", str "analgesic", str "anticoagulant", str "antihypertensive", str "antidiabetic", str "antidepressant", str "antipsychotic", str "bronchodilator", str "corticosteroid", str "diuretic", str "insulin", str "chemotherapy", str "dose", str "dosage", str "frequency", str "duration", str "route", str "administration", str "titration", str "adjustment"]

def clinicalInterventionsProcedural : List Str :=
  [str "procedure", str "surgical procedure", str "medical procedure", str "diagnostic procedure", str "therapeutic procedure", str "surgery", str "operation", str "biopsy", str "endoscopy", str "catheterization", str "intubation", str "ventilation", str "dialysis", str "transfusion", str "infusion", str "injection", str "aspiration", str "drainage", str "debridement", str "wound care", str "dressing change", str "suturing", str "stapling", str "bandaging", str "splinting", str "casting"]

def clinicalInterventionsTherapeutic : List Str :=
  [str "therapy", str "therapeutic intervention", str "physical therapy", str "occupational therapy", str "speech therapy", str "respiratory therapy", str "cardiac rehabilitation", str "pulmonary rehabilitation", str "pain management", str "wound therapy", str "pressure therapy", str "compression therapy", str "heat therapy", str "cold therapy", str "electrical stimulation", str "ultrasound therapy", str "radiation therapy", str "phototherapy", str "hydrotherapy"]

def clinicalInterventionsEducational : List Str :=
  [str "education", str "patient education", str "health education", str "counseling", str "patient counseling", str "instruction", str "teaching", str "training", str "guidance", str "advice", str "recommendations", str "information", str "discharge teaching", str "medication teaching", str "dietary instruction", str "exercise instruction", str "lifestyle counseling", str "smoking cessation", str "weight management", str "diabetes education"]

def clinicalInterventionsPreventive : List Str :=
  [str "prevention", str "preventive care", str "prophylaxis", str "immunization", str "vaccination", str "screening", str "early detection", str "risk reduction", str "health promotion", str "wellness", str "preventive measures", str "infection prevention", str "fall prevention", str "pressure ulcer prevention", str "deep vein thrombosis prevention", str "aspiration prevention", str "complication prevention", str "readmission prevention"]

def clinicalInterventions : List (List Str) :=
  [clinicalInterventionsPharmacological, clinicalInterventionsProcedural, clinicalInterventionsTherapeutic, clinicalInterventionsEducational, clinicalInterventionsPreventive]

def goldenThreadConnections : List Connection :=
  [
  { fromSec := secChiefComplaint, toSec := secAssessment, type := .diagnostic, weight := (20 : ℚ) / 100 },
  { fromSec := secAssessment, toSec := secPlan, type := .therapeutic, weight := (20 : ℚ) / 100 },
  { fromSec := secPlan, toSec := secInterventions, type := .implementation, weight := (20 : ℚ) / 100 },
  { fromSec := secPastMedicalHistory, toSec := secAssessment, type := .contextual, weight := (15 : ℚ) / 100 },
  { fromSec := secHistoryOfPresentIllness, toSec := secAssessment, type := .diagnostic, weight := (15 : ℚ) / 100 },
  { fromSec := secPhysicalExamination, toSec := secAssessment, type := .diagnostic, weight := (15 : ℚ) / 100 },
  { fromSec := secPhysicalExamination, toSec := secPlan, type := .therapeutic, weight := (10 : ℚ) / 100 },
  { fromSec := secAssessment, toSec := secInterventions, type := .actionIntervention, weight := (20 : ℚ) / 100 },
  { fromSec := secPlan, toSec := secInterventions, type := .actionIntervention, weight := (20 : ℚ) / 100 }
  ]

/-- splitIntoSentences: split(/[.!?]+/) keeping sentences with a
nonempty trim. -/
def splitIntoSentences (text : Str) : List Str :=
  (jsSplit isSentenceSep text).filter fun s => decide ((jsTrim s).length > 0)

/-- extractSectionContent: the sentences whose lowercased form contains
one of the section keywords. -/
def extractSectionContent (sentences : List Str) (sectionKeywords : List Str) : List Str :=
  sentences.filter fun sentence =>
    sectionKeywords.any fun keyword => strIncludes (lowerStr sentence) keyword

/-- analyzeSectionCoverage's per-section score:
min(content.length * 10, 100) when the section is present, else 0. -/
def sectionScore (sentences : List Str) (sec : SectionConfig) : ℕ :=
  let content := extractSectionContent sentences sec.keywords
  if content.length > 0 then min (content.length * 10) 100 else 0

/-- analyzeSectionCoverage's overallScore: Math.round of the
weight-scaled section scores. -/
def coverageScore (sentences : List Str) : ℤ :=
  jsRound ((clinicalSections.map fun sec =>
    (sectionScore sentences sec : ℚ) * sec.weight).sum)

/-- totalActions / totalInterventions: the total count of the category
keywords contained in the lowercased text, over all categories. -/
def totalFound (textLower : Str) (groups : List (List Str)) : ℕ :=
  (groups.map fun kws =>
    (kws.filter fun keyword => strIncludes textLower (lowerStr keyword)).length).sum

/-- text.split(/\W+/).filter(w => w.length > 3), as used by the
connection-strength helpers. -/
def wordsOver3 (t : Str) : List Str :=
  (jsSplit (fun c => !(isWordChar c)) t).filter fun w => decide (w.length > 3)

def diagnosticKeywords : List Str :=
  [str "diagnosis", str "assessment", str "impression", str "finding", str "result"]

def therapeuticKeywords : List Str :=
  [str "treatment", str "plan", str "intervention", str "therapy", str "management"]

def actionKeywords : List Str :=
  [str "assess", str "evaluate", str "monitor", str "observe", str "check"]

def interventionKeywords : List Str :=
  [str "treat", str "administer", str "perform", str "provide", str "deliver"]

/-- calculateKeywordOverlap: the fraction of the given keywords that
appear as a word (of length over 3) in both texts. -/
def calculateKeywordOverlap (t1 t2 : Str) (kws : List Str) : ℚ :=
  let words1 := wordsOver3 t1
  let words2 := wordsOver3 t2
  let matching := kws.filter fun keyword =>
    decide (keyword ∈ words1) && decide (keyword ∈ words2)
  (matching.length : ℚ) / (kws.length : ℚ)

/-- calculateActionInterventionConnection: 0.8 when both an action and an
intervention keyword are present, 0.3 when exactly one side is, else 0. -/
def calculateActionInterventionConnection (actionText interventionText : Str) : ℚ :=
  let actionPresent := actionKeywords.any fun keyword => strIncludes actionText keyword
  let interventionPresent :=
    interventionKeywords.any fun keyword => strIncludes interventionText keyword
  if actionPresent && interventionPresent then 8 / 10
  else if actionPresent || interventionPresent then 3 / 10
  else 0

/-- calculateGeneralSimilarity: Jaccard index of the word sets (words of
length over 3). -/
def calculateGeneralSimilarity (t1 t2 : Str) : ℚ :=
  let inter := setInter (wordsOver3 t1) (wordsOver3 t2)
  let union := setUnion (wordsOver3 t1) (wordsOver3 t2)
  if union.length > 0 then (inter.length : ℚ) / (union.length : ℚ) else 0

/-- calculateConnectionStrength: 0 when either side is empty, else the
type-specific similarity of the joined lowercased contents, capped at 1.
The source's default branch covers the implementation and contextual
types. -/
def calculateConnectionStrength (fromContent toContent : List Str) (ty : ConnType) : ℚ :=
  if fromContent.length = 0 ∨ toContent.length = 0 then 0
  else
    let fromText := lowerStr (joinSpace fromContent)
    let toText := lowerStr (joinSpace toContent)
    let strength : ℚ :=
      match ty with
      | .diagnostic => calculateKeywordOverlap fromText toText diagnosticKeywords
      | .therapeutic => calculateKeywordOverlap fromText toText therapeuticKeywords
      | .actionIntervention => calculateActionInterventionConnection fromText toText
      | _ => calculateGeneralSimilarity fromText toText
    min strength 1

/-- One connection's contribution to analyzeGoldenThreadConnections'
totalStrength: strength times weight, counted only when both sections
are present and the strength exceeds 0.5. -/
def connectionContrib (sentences : List Str) (conn : Connection) : ℚ :=
  let fromContent := extractSectionContent sentences conn.fromSec.keywords
  let toContent := extractSectionContent sentences conn.toSec.keywords
  let present := fromContent.length > 0 ∧ toContent.length > 0
  let strength := calculateConnectionStrength fromContent toContent conn.type
  if present ∧ strength > 1 / 2 then strength * conn.weight else 0

/-- analyzeGoldenThreadConnections' connectionScore:
Math.round(totalStrength * 100). -/
def connectionScore (sentences : List Str) : ℤ :=
  jsRound ((goldenThreadConnections.map fun conn =>
    connectionContrib sentences conn).sum * 100)

/-- analyze()'s compliance_score: Math.round of section coverage times
0.3 plus connection score times 0.4 plus a bonus of 30 when both action
and intervention totals are positive. -/
def complianceScore (text : Str) : ℤ :=
  let sentences := splitIntoSentences text
  let textLower := lowerStr text
  let sectionPart := coverageScore sentences
  let connectionPart := connectionScore sentences
  let bonus : ℚ :=
    if totalFound textLower patientCareActions > 0 ∧
        totalFound textLower clinicalInterventions > 0 then 30 else 0
  jsRound ((sectionPart : ℚ) * (3 / 10) + (connectionPart : ℚ) * (4 / 10) + bonus)

theorem sectionWeights_nonneg : ∀ sec ∈ clinicalSections, (0 : ℚ) ≤ sec.weight := by
  intro sec hsec
  fin_cases hsec <;>
    norm_num [secPatientIdentification, secChiefComplaint,
      secHistoryOfPresentIllness, secPastMedicalHistory,
      secPhysicalExamination, secAssessment, secPlan, secInterventions]

theorem goldenWeights_nonneg : ∀ conn ∈ goldenThreadConnections, (0 : ℚ) ≤ conn.weight := by
  intro conn hconn
  fin_cases hconn <;> norm_num

theorem coverageScore_nonneg (sentences : List Str) : 0 ≤ coverageScore sentences := by
  unfold coverageScore
  apply jsRound_nonneg
  apply List.sum_nonneg
  intro x hx
  simp only [List.mem_map] at hx
  obtain ⟨sec, hsec, rfl⟩ := hx
  exact mul_nonneg (Nat.cast_nonneg _) (sectionWeights_nonneg sec hsec)

theorem connectionContrib_nonneg (sentences : List Str) (conn : Connection)
    (hw : 0 ≤ conn.weight) : 0 ≤ connectionContrib sentences conn := by
  unfold connectionContrib
  dsimp only
  split_ifs with h
  · exact mul_nonneg (le_of_lt (lt_trans (by norm_num) h.2)) hw
  · exact le_refl 0

theorem connectionScore_nonneg (sentences : List Str) : 0 ≤ connectionScore sentences := by
  unfold connectionScore
  apply jsRound_nonneg
  refine mul_nonneg ?_ (by norm_num)
  apply List.sum_nonneg
  intro x hx
  simp only [List.mem_map] at hx
  obtain ⟨conn, hconn, rfl⟩ := hx
  exact connectionContrib_nonneg sentences conn (goldenWeights_nonneg conn hconn)

/-- The golden-thread compliance score is never negative. -/
theorem golden_nonneg (text : Str) : 0 ≤ complianceScore text := by
  unfold complianceScore
  dsimp only
  apply jsRound_nonneg
  have h1 : (0 : ℚ) ≤ (coverageScore (splitIntoSentences text) : ℚ) := by
    exact_mod_cast coverageScore_nonneg (splitIntoSentences text)
  have h2 : (0 : ℚ) ≤ (connectionScore (splitIntoSentences text) : ℚ) := by
    exact_mod_cast connectionScore_nonneg (splitIntoSentences text)
  have h3 : (0 : ℚ) ≤ (if totalFound (lowerStr text) patientCareActions > 0 ∧
      totalFound (lowerStr text) clinicalInterventions > 0 then (30 : ℚ) else 0) := by
    split_ifs <;> norm_num
  linarith

end Golden



namespace Golden

/-- Evaluate calculateKeywordOverlap from the matching-keyword count. -/
theorem kwOverlap_eval (t1 t2 : Str) (kws : List Str) (n : ℕ)
    (h : (kws.filter fun keyword =>
        decide (keyword ∈ wordsOver3 t1) &&
          decide (keyword ∈ wordsOver3 t2)).length = n) :
    calculateKeywordOverlap t1 t2 kws = (n : ℚ) / (kws.length : ℚ) := by
  unfold calculateKeywordOverlap
  dsimp only
  rw [h]

/-- The action-intervention connection strength is 0.8 when an action
keyword and an intervention keyword are both present. -/
theorem aiConn_eval (t1 t2 : Str)
    (h1 : (actionKeywords.any fun keyword => strIncludes t1 keyword) = true)
    (h2 : (interventionKeywords.any fun keyword => strIncludes t2 keyword) = true) :
    calculateActionInterventionConnection t1 t2 = 8 / 10 := by
  unfold calculateActionInterventionConnection
  dsimp only
  rw [h1, h2]
  simp

/-- The general similarity of a text with itself is 1 whenever its word
list is nonempty. -/
theorem generalSimilarity_self (t : Str) (h : wordsOver3 t ≠ []) :
    calculateGeneralSimilarity t t = 1 := by
  unfold calculateGeneralSimilarity
  dsimp only
  have hinter : setInter (wordsOver3 t) (wordsOver3 t) = (wordsOver3 t).dedup := by
    unfold setInter
    apply List.filter_eq_self.2
    intro x hx
    simpa using hx
  have hunion : (setUnion (wordsOver3 t) (wordsOver3 t)).length =
      (wordsOver3 t).dedup.length := by
    unfold setUnion
    rw [← List.card_toFinset, List.toFinset_append, Finset.union_self,
      List.card_toFinset, List.dedup_idem]
  have hpos : 0 < (wordsOver3 t).dedup.length := by
    cases hw : (wordsOver3 t).dedup with
    | nil => exact absurd ((List.dedup_eq_nil _).mp hw) h
    | cons c cs => simp
  rw [hinter, hunion, if_pos hpos]
  exact div_self (by exact_mod_cast hpos.ne')

/-- A clinical note that stresses the golden-thread scorer: four copies
of one keyword-dense sentence, joined by sentence separators. -/
def cexSentence : Str :=
  str "patient name chief complaint history of present illness past medical history physical examination assessment plan interventions diagnosis impression finding result treatment intervention therapy management"

def cexGoldenText : Str :=
  List.intercalate (str ". ") [cexSentence, cexSentence, cexSentence, cexSentence]

set_option maxHeartbeats 1000000 in
theorem cexLen4 : (splitIntoSentences cexGoldenText).length = 4 := by decide

set_option maxHeartbeats 1000000 in
theorem cexSents_present :
    ¬((splitIntoSentences cexGoldenText).length = 0 ∨
      (splitIntoSentences cexGoldenText).length = 0) := by decide

set_option maxHeartbeats 1000000 in
theorem cexSec_cc :
    extractSectionContent (splitIntoSentences cexGoldenText) secChiefComplaint.keywords =
      splitIntoSentences cexGoldenText := by decide

set_option maxHeartbeats 1000000 in
theorem cexSec_hpi :
    extractSectionContent (splitIntoSentences cexGoldenText) secHistoryOfPresentIllness.keywords =
      splitIntoSentences cexGoldenText := by decide

set_option maxHeartbeats 1000000 in
theorem cexSec_pmh :
    extractSectionContent (splitIntoSentences cexGoldenText) secPastMedicalHistory.keywords =
      splitIntoSentences cexGoldenText := by decide

set_option maxHeartbeats 1000000 in
theorem cexSec_pe :
    extractSectionContent (splitIntoSentences cexGoldenText) secPhysicalExamination.keywords =
      splitIntoSentences cexGoldenText := by decide

set_option maxHeartbeats 1000000 in
theorem cexSec_assessment :
    extractSectionContent (splitIntoSentences cexGoldenText) secAssessment.keywords =
      splitIntoSentences cexGoldenText := by decide

set_option maxHeartbeats 1000000 in
theorem cexSec_plan :
    extractSectionContent (splitIntoSentences cexGoldenText) secPlan.keywords =
      splitIntoSentences cexGoldenText := by decide

set_option maxHeartbeats 1000000 in
theorem cexSec_interventions :
    extractSectionContent (splitIntoSentences cexGoldenText) secInterventions.keywords =
      splitIntoSentences cexGoldenText := by decide

set_option maxHeartbeats 1000000 in
theorem cexDiagCount :
    (diagnosticKeywords.filter fun keyword =>
        decide (keyword ∈ wordsOver3 (lowerStr (joinSpace (splitIntoSentences cexGoldenText)))) &&
          decide (keyword ∈ wordsOver3 (lowerStr (joinSpace (splitIntoSentences cexGoldenText))))).length
      = 5 := by decide

set_option maxHeartbeats 1000000 in
theorem cexTherCount :
    (therapeuticKeywords.filter fun keyword =>
        decide (keyword ∈ wordsOver3 (lowerStr (joinSpace (splitIntoSentences cexGoldenText)))) &&
          decide (keyword ∈ wordsOver3 (lowerStr (joinSpace (splitIntoSentences cexGoldenText))))).length
      = 5 := by decide

set_option maxHeartbeats 1000000 in
theorem cexWordsNe :
    wordsOver3 (lowerStr (joinSpace (splitIntoSentences cexGoldenText))) ≠ [] := by decide

set_option maxHeartbeats 1000000 in
theorem cexActionAny :
    (actionKeywords.any fun keyword =>
      strIncludes (lowerStr (joinSpace (splitIntoSentences cexGoldenText))) keyword) = true := by
  decide

set_option maxHeartbeats 1000000 in
theorem cexInterventionAny :
    (interventionKeywords.any fun keyword =>
      strIncludes (lowerStr (joinSpace (splitIntoSentences cexGoldenText))) keyword) = true := by
  decide

end Golden



namespace Golden

theorem cexStrength_diagnostic :
    calculateConnectionStrength (splitIntoSentences cexGoldenText)
      (splitIntoSentences cexGoldenText) ConnType.diagnostic = 1 := by
  unfold calculateConnectionStrength
  rw [if_neg cexSents_present]
  dsimp only
  rw [kwOverlap_eval _ _ _ 5 cexDiagCount]
  norm_num [diagnosticKeywords]

theorem cexStrength_therapeutic :
    calculateConnectionStrength (splitIntoSentences cexGoldenText)
      (splitIntoSentences cexGoldenText) ConnType.therapeutic = 1 := by
  unfold calculateConnectionStrength
  rw [if_neg cexSents_present]
  dsimp only
  rw [kwOverlap_eval _ _ _ 5 cexTherCount]
  norm_num [therapeuticKeywords]

theorem cexStrength_implementation :
    calculateConnectionStrength (splitIntoSentences cexGoldenText)
      (splitIntoSentences cexGoldenText) ConnType.implementation = 1 := by
  unfold calculateConnectionStrength
  rw [if_neg cexSents_present]
  dsimp only
  rw [generalSimilarity_self _ cexWordsNe]
  norm_num

theorem cexStrength_contextual :
    calculateConnectionStrength (splitIntoSentences cexGoldenText)
      (splitIntoSentences cexGoldenText) ConnType.contextual = 1 := by
  unfold calculateConnectionStrength
  rw [if_neg cexSents_present]
  dsimp only
  rw [generalSimilarity_self _ cexWordsNe]
  norm_num

theorem cexStrength_ai :
    calculateConnectionStrength (splitIntoSentences cexGoldenText)
      (splitIntoSentences cexGoldenText) ConnType.actionIntervention = 8 / 10 := by
  unfold calculateConnectionStrength
  rw [if_neg cexSents_present]
  dsimp only
  rw [aiConn_eval _ _ cexActionAny cexInterventionAny]
  rw [min_eq_left (by norm_num : (8 / 10 : ℚ) ≤ 1)]

set_option maxHeartbeats 1000000 in
theorem cexScore_pi :
    sectionScore (splitIntoSentences cexGoldenText) secPatientIdentification = 40 := by decide

set_option maxHeartbeats 1000000 in
theorem cexScore_cc :
    sectionScore (splitIntoSentences cexGoldenText) secChiefComplaint = 40 := by decide

set_option maxHeartbeats 1000000 in
theorem cexScore_hpi :
    sectionScore (splitIntoSentences cexGoldenText) secHistoryOfPresentIllness = 40 := by decide

set_option maxHeartbeats 1000000 in
theorem cexScore_pmh :
    sectionScore (splitIntoSentences cexGoldenText) secPastMedicalHistory = 40 := by decide

set_option maxHeartbeats 1000000 in
theorem cexScore_pe :
    sectionScore (splitIntoSentences cexGoldenText) secPhysicalExamination = 40 := by decide

set_option maxHeartbeats 1000000 in
theorem cexScore_assessment :
    sectionScore (splitIntoSentences cexGoldenText) secAssessment = 40 := by decide

set_option maxHeartbeats 1000000 in
theorem cexScore_plan :
    sectionScore (splitIntoSentences cexGoldenText) secPlan = 40 := by decide

set_option maxHeartbeats 1000000 in
theorem cexScore_interventions :
    sectionScore (splitIntoSentences cexGoldenText) secInterventions = 40 := by decide

/-- Section coverage of the stress text: every section matches all four
sentences, so each scores min(40, 100) = 40 and the weighted total is
40 x 1.10 = 44. -/
theorem cexCoverage : coverageScore (splitIntoSentences cexGoldenText) = 44 := by
  unfold coverageScore
  simp only [clinicalSections, List.map_cons, List.map_nil, List.sum_cons,
    List.sum_nil, cexScore_pi, cexScore_cc, cexScore_hpi, cexScore_pmh,
    cexScore_pe, cexScore_assessment, cexScore_plan, cexScore_interventions]
  apply jsRound_eq_of <;>
    norm_num [secPatientIdentification, secChiefComplaint,
      secHistoryOfPresentIllness, secPastMedicalHistory,
      secPhysicalExamination, secAssessment, secPlan, secInterventions]

/-- Connection analysis of the stress text: every one of the nine
connections is present; the three diagnostic, one therapeutic pair and
both general connections have strength 1 and the two action-intervention
connections have strength 0.8, so totalStrength = 1.47 and the score is
147. -/
theorem cexConnScore : connectionScore (splitIntoSentences cexGoldenText) = 147 := by
  unfold connectionScore
  simp only [goldenThreadConnections, List.map_cons, List.map_nil,
    List.sum_cons, List.sum_nil, connectionContrib]
  simp only [cexSec_cc, cexSec_hpi, cexSec_pmh, cexSec_pe, cexSec_assessment,
    cexSec_plan, cexSec_interventions]
  simp only [cexStrength_diagnostic, cexStrength_therapeutic,
    cexStrength_implementation, cexStrength_contextual, cexStrength_ai, cexLen4]
  apply jsRound_eq_of <;> norm_num

set_option maxHeartbeats 1000000 in
theorem cexActionsPos : totalFound (lowerStr cexGoldenText) patientCareActions > 0 := by
  decide

set_option maxHeartbeats 1000000 in
theorem cexInterventionsPos : totalFound (lowerStr cexGoldenText) clinicalInterventions > 0 := by
  decide

/-- The golden-thread stress text scores
round(44 x 0.3 + 147 x 0.4 + 30) = 102, above the claimed bound. -/
theorem cexGoldenScore : complianceScore cexGoldenText = 102 := by
  unfold complianceScore
  dsimp only
  rw [cexCoverage, cexConnScore, if_pos ⟨cexActionsPos, cexInterventionsPos⟩]
  apply jsRound_eq_of <;> norm_num

end Golden

/-- C1 counterexample: the overall scores are not all bounded by 100.
The golden-thread pass has no clamp: on a four-sentence keyword-dense
note its compliance_score evaluates to 102 (section coverage 44,
connection score 147, action-intervention bonus 30, and
round(44 x 0.3 + 147 x 0.4 + 30) = 102). -/
theorem analysis_score_bounds_cex :
    Golden.complianceScore Golden.cexGoldenText = 102 ∧
    100 < Golden.complianceScore Golden.cexGoldenText := by
  constructor
  · exact Golden.cexGoldenScore
  · rw [Golden.cexGoldenScore]
    decide

/-- C1 as amended: for every input text the clonability
originality_score, the integrity integrity_score and the audit
audit_score are integers in [0, 100]; the golden-thread
compliance_score is an integer that is always nonnegative, but it is
not bounded above by 100 (it can reach 102). -/
theorem analysis_score_bounds (text : Str) :
    (0 ≤ Clona.originalityScore text ∧ Clona.originalityScore text ≤ 100) ∧
    (0 ≤ Integrity.nlpIntegrityScore text ∧ Integrity.nlpIntegrityScore text ≤ 100) ∧
    (0 ≤ Audit.auditScore text ∧ Audit.auditScore text ≤ 100) ∧
    0 ≤ Golden.complianceScore text :=
  ⟨Clona.clonability_bounds text, Integrity.integrity_bounds text,
    Audit.audit_bounds text, Golden.golden_nonneg text⟩


end Clincerta
